import Mathlib

/-!
# percona-agent: the MySQL metrics monitor

A shallow embedding of `mm/mysql/monitor.go`, `mm/mysql/config.go` and
`agent/config.go`, and a model of the system monitor of `mm/system`, of which
the sources hold the tests only.

* A `Monitor` value holds the fields of the Go struct that the methods assign.
* Every method returns its Go return value, the monitor after the call and the
  ordered trace of the effects it performed on its collaborators (logger,
  status registry, sync channel, connection, goroutines).
* What the database and the collection sink answer is an input of the model.
* Go library functions (`strings.ToLower`, `strconv.ParseFloat`, the `float64`
  conversion) are the fields of a `GoLib` parameter.
-/

namespace PerconaAgent

/-! ## Data model -/

/-- Go `error` values: the typed error of `pct` that `Start` returns, and the
errors coming out of `database/sql` and the connector, known by their text. -/
inductive Error where
  | ServiceIsRunningError (service : String)
  | other (msg : String)
  deriving DecidableEq, Repr

/-- A Go channel value: `none` is the nil channel, `some i` the channel `i`. -/
abbrev Chan := Option Nat

/-- Modelled from the spec: the declaration of `mm.Metric` is not among the
sources; the spec gives `Name`, `Type` and `Number`, and the four-value
literals of `monitor.go` give a last string field. `Type` and `String` are
reserved words here, hence `Type_` and `String_`. -/
structure Metric (ν : Type) where
  Name : String
  Type_ : String
  Number : ν
  String_ : String
  deriving DecidableEq, Repr

/-- Modelled from the spec: the declaration of `mm.Collection` is not among the
sources; the fields are those of the literal in `run` (the embedded
`proto.ServiceInstance` gives `Service` and `InstanceId`). -/
structure Collection (ν : Type) where
  Service : String
  InstanceId : Nat
  Ts : Int
  Metrics : List (Metric ν)
  deriving DecidableEq, Repr

/-- The struct `Config` of `mm/mysql/config.go`. Of the embedded `mm.Config`
only the service instance that `monitor.go` reads is kept. The Go map `Status`
is an association list read with `List.lookup`. -/
structure Config where
  Service : String
  InstanceId : Nat
  Status : List (String × String)
  InnoDB : List String
  UserStats : Bool
  UserStatsIgnoreDb : String
  deriving DecidableEq, Repr

/-- The struct `Monitor`. `config` is a pointer (`none` is nil); `logger` and
`conn` are handles of the collaborators given to `NewMonitor`. The objects
`NewMonitor` allocates itself (`connectedChan`, `status`, `sync`) are never
reassigned: what the methods do to them is recorded in the trace. -/
structure Monitor where
  name : String
  config : Option Config
  logger : Nat
  conn : Nat
  tickChan : Chan
  collectionChan : Chan
  connected : Bool
  running : Bool
  deriving DecidableEq, Repr

/-- One effect of a method on a collaborator of the monitor. -/
inductive Event where
  /-- `m.logger.Debug(msg)` -/
  | Debug (msg : String)
  /-- `m.logger.Info(msg)` -/
  | Info (msg : String)
  /-- `m.logger.Warn(err)` -/
  | Warn (err : Error)
  /-- `m.logger.Error(sql, err)` -/
  | LogError (sql : String) (err : Error)
  /-- `m.status.Update(proc, status)` -/
  | StatusUpdate (proc : String) (status : String)
  /-- `go m.run()` -/
  | GoRun
  /-- `go m.connect(nil)` -/
  | GoConnect
  /-- `m.sync.Stop()` -/
  | SyncStop
  /-- `m.sync.Wait()` -/
  | SyncWait
  /-- `conn.Query(sql)` on the handle `m.conn.DB()` -/
  | Query (sql : String)
  /-- the deferred `rows.Close()` -/
  | RowsClose
  /-- the `select` that offers the collection of the tick to `m.collectionChan`:
  `true` when the send case ran, `false` when `time.After` fired first -/
  | Send (accepted : Bool)
  /-- `m.conn.Close()` -/
  | ConnClose
  /-- `m.conn.Connect(1)` -/
  | ConnConnect
  /-- `m.conn.DB().Exec(sql)` -/
  | Exec (sql : String)
  /-- `m.connectedChan <- connected` -/
  | ConnectedSend (connected : Bool)
  deriving DecidableEq, Repr

/-- The outcome of a method call: the returned value, the monitor afterwards
and the effects in the order they happened. -/
structure Call (α : Type) where
  ret : α
  monitor : Monitor
  trace : List Event

/-! ## Interface: `NewMonitor`, `Start`, `Stop`, `Config` -/

/-- `NewMonitor(name, config, logger, conn)`: the fields not named in the
composite literal have their zero value. -/
def NewMonitor (name : String) (config : Option Config) (logger conn : Nat) : Monitor :=
  { name := name
    config := config
    logger := logger
    conn := conn
    tickChan := none
    collectionChan := none
    connected := false
    running := false }

/-- `(m *Monitor) Start(tickChan, collectionChan)`. The deferred
`Debug("Start:return")` is the last effect on both paths. -/
def Monitor.Start (m : Monitor) (tickChan collectionChan : Chan) : Call (Option Error) :=
  if m.running then
    { ret := some (Error.ServiceIsRunningError m.name)
      monitor := m
      trace := [Event.Debug "Start:call", Event.Debug "Start:return"] }
  else
    { ret := none
      monitor := { m with tickChan := tickChan, collectionChan := collectionChan, running := true }
      trace := [Event.Debug "Start:call", Event.GoRun, Event.Info "Started",
                Event.Debug "Start:return"] }

/-- `(m *Monitor) Stop()`. On a running monitor the value describes the call
once `m.sync.Wait()` has returned, that is once the run loop has answered the
stop signal. -/
def Monitor.Stop (m : Monitor) : Call (Option Error) :=
  if !m.running then
    { ret := none
      monitor := m
      trace := [Event.Debug "Stop:call", Event.Debug "Stop:return"] }
  else
    { ret := none
      monitor := { m with config := none, running := false }
      trace := [Event.Debug "Stop:call", Event.StatusUpdate m.name "Stopping", Event.SyncStop,
                Event.SyncWait, Event.Info "Stopped", Event.Debug "Stop:return"] }

/-- `(m *Monitor) TickChan()`. -/
def Monitor.TickChan (m : Monitor) : Chan := m.tickChan

/-- `(m *Monitor) Config()`: the stored pointer, whatever the running flag. -/
def Monitor.Config (m : Monitor) : Option Config := m.config

/-- An effect is a status update when it is a call of `m.status.Update`. -/
def Event.isStatusUpdate : Event → Bool
  | Event.StatusUpdate _ _ => true
  | _ => false

/-! ## Collaborators of the collectors -/

/-- The Go library functions the collectors call, as parameters: the code is
read for every implementation of them. -/
structure GoLib (ν : Type) where
  /-- `strings.ToLower` -/
  ToLower : String → String
  /-- `strconv.ParseFloat(s, 64)`: the value, or `none` when it returns an error -/
  ParseFloat : String → Option ν
  /-- the constant `0.0` -/
  zero : ν
  /-- the conversion `float64(i)` of an `int64` -/
  float64 : Int → ν

/-- A `*sql.Rows` as the loops consume it: for each row that `rows.Next()`
delivers, what `rows.Scan` into the variables of the loop gives, and the value
of `rows.Err()` read after the loop. -/
structure Rows (ρ : Type) where
  scans : List (Except Error ρ)
  err : Option Error

/-- What `conn.Query(sql)` answers, rows being scanned into a `ρ`. -/
abbrev Conn (ρ : Type) := String → Except Error (Rows ρ)

/-- The `*sql.DB` of a tick, seen through the four row shapes that are scanned. -/
structure DB where
  status : Conn (String × String)
  innodb : Conn (String × String × String × String)
  tableStats : Conn (String × String × Int × Int × Int)
  indexStats : Conn (String × String × String × Int)

/-- The outcome of a collector: the returned error, the collection `c` points
to afterwards, and the effects. -/
structure Collected (ν : Type) where
  ret : Option Error
  c : Collection ν
  trace : List Event

/-- The end of a collector whose query succeeded: a scan error was returned
from inside the loop, otherwise `rows.Err()` is returned. -/
def afterLoop (loopErr rowsErr : Option Error) : Option Error :=
  match loopErr with
  | some e => some e
  | none => rowsErr

/-! ## SHOW STATUS -/

/-- The `for rows.Next()` loop of `GetShowStatusMetrics` over the metrics of
`c`. `none` is the nil dereference of `m.config`; otherwise the error returned
from inside the loop, if any, and the metrics. -/
def GetShowStatusMetrics.loop {ν : Type} (lib : GoLib ν) (config : Option Config) :
    List (Except Error (String × String)) → List (Metric ν) →
      Option (Option Error × List (Metric ν))
  | [], metrics => some (none, metrics)
  | Except.error err :: _, metrics => some (some err, metrics)
  | Except.ok (statName, statValue) :: rest, metrics =>
    match config with
    | none => none
    | some cfg =>
      let statName := lib.ToLower statName
      match cfg.Status.lookup statName with
      | none => GetShowStatusMetrics.loop lib config rest metrics
      | some metricType =>
        let metricName := statName
        let metricValue :=
          match lib.ParseFloat statValue with
          | some v => v
          | none => lib.zero
        GetShowStatusMetrics.loop lib config rest
          (metrics ++ [{ Name := "mysql/" ++ metricName, Type_ := metricType,
                         Number := metricValue, String_ := "" }])

/-- The query text of `GetShowStatusMetrics`. -/
def GetShowStatusMetrics.sql : String := "SHOW /*!50002 GLOBAL */ STATUS"

/-- `(m *Monitor) GetShowStatusMetrics(conn, c)`; `none` is a panic. -/
def Monitor.GetShowStatusMetrics {ν : Type} (lib : GoLib ν) (m : Monitor)
    (conn : Conn (String × String)) (c : Collection ν) : Option (Collected ν) :=
  let pre := [Event.Debug "GetShowStatusMetrics:call",
              Event.StatusUpdate m.name "Getting global status metrics",
              Event.Query GetShowStatusMetrics.sql]
  match conn GetShowStatusMetrics.sql with
  | Except.error err =>
    some { ret := some err, c := c, trace := pre ++ [Event.Debug "GetShowStatusMetrics:return"] }
  | Except.ok rows =>
    match GetShowStatusMetrics.loop lib m.config rows.scans c.Metrics with
    | none => none
    | some (loopErr, metrics) =>
      some { ret := afterLoop loopErr rows.err
             c := { c with Metrics := metrics }
             trace := pre ++ [Event.RowsClose, Event.Debug "GetShowStatusMetrics:return"] }

/-! ## InnoDB metrics -/

/-- The `for rows.Next()` loop of `GetInnoDBMetrics`. -/
def GetInnoDBMetrics.loop {ν : Type} (lib : GoLib ν) :
    List (Except Error (String × String × String × String)) → List (Metric ν) →
      Option Error × List (Metric ν)
  | [], metrics => (none, metrics)
  | Except.error err :: _, metrics => (some err, metrics)
  | Except.ok (statName, statSubsystem, statCount, statType) :: rest, metrics =>
    let metricName := "mysql/innodb/" ++ lib.ToLower statSubsystem ++ "/" ++ lib.ToLower statName
    let metricValue :=
      match lib.ParseFloat statCount with
      | some v => v
      | none => lib.zero
    let metricType := if statType = "value" then "gauge" else "counter"
    GetInnoDBMetrics.loop lib rest
      (metrics ++ [{ Name := metricName, Type_ := metricType, Number := metricValue,
                     String_ := "" }])

/-- The query text of `GetInnoDBMetrics`. -/
def GetInnoDBMetrics.sql : String :=
  "SELECT NAME, SUBSYSTEM, COUNT, TYPE FROM INFORMATION_SCHEMA.INNODB_METRICS WHERE STATUS='enabled'"

/-- `(m *Monitor) GetInnoDBMetrics(conn, c)`. -/
def Monitor.GetInnoDBMetrics {ν : Type} (lib : GoLib ν) (m : Monitor)
    (conn : Conn (String × String × String × String)) (c : Collection ν) : Collected ν :=
  let sql := GetInnoDBMetrics.sql
  let pre := [Event.Debug "GetInnoDBMetrics:call",
              Event.StatusUpdate m.name "Getting InnoDB metrics", Event.Query sql]
  match conn sql with
  | Except.error err =>
    { ret := some err, c := c, trace := pre ++ [Event.Debug "GetInnoDBMetrics:return"] }
  | Except.ok rows =>
    let r := GetInnoDBMetrics.loop lib rows.scans c.Metrics
    { ret := afterLoop r.1 rows.err
      c := { c with Metrics := r.2 }
      trace := pre ++ [Event.RowsClose, Event.Debug "GetInnoDBMetrics:return"] }

/-! ## User statistics -/

/-- The query text `sql` that `getTableUserStats` builds. -/
def getTableUserStats.sql (ignoreDb : String) : String :=
  let sql := "SELECT TABLE_SCHEMA, TABLE_NAME, ROWS_READ, ROWS_CHANGED, ROWS_CHANGED_X_INDEXES" ++
    " FROM INFORMATION_SCHEMA.TABLE_STATISTICS"
  if ignoreDb ≠ "" then sql ++ (" WHERE TABLE_SCHEMA NOT LIKE '" ++ ignoreDb ++ "'") else sql

/-- The `for rows.Next()` loop of `getTableUserStats`. The three literals
leave the last field of the metric at its zero value. -/
def getTableUserStats.loop {ν : Type} (lib : GoLib ν) :
    List (Except Error (String × String × Int × Int × Int)) → List (Metric ν) →
      Option Error × List (Metric ν)
  | [], metrics => (none, metrics)
  | Except.error err :: _, metrics => (some err, metrics)
  | Except.ok (tableSchema, tableName, rowsRead, rowsChanged, rowsChangedIndexes) :: rest,
      metrics =>
    let metrics := metrics ++
      [{ Name := "mysql/db." ++ tableSchema ++ "/t." ++ tableName ++ "/rows_read",
         Type_ := "counter", Number := lib.float64 rowsRead, String_ := "" }]
    let metrics := metrics ++
      [{ Name := "mysql/db." ++ tableSchema ++ "/t." ++ tableName ++ "/rows_changed",
         Type_ := "counter", Number := lib.float64 rowsChanged, String_ := "" }]
    let metrics := metrics ++
      [{ Name := "mysql/db." ++ tableSchema ++ "/t." ++ tableName ++ "/rows_changed_x_indexes",
         Type_ := "counter", Number := lib.float64 rowsChangedIndexes, String_ := "" }]
    getTableUserStats.loop lib rest metrics

/-- `(m *Monitor) getTableUserStats(conn, c, ignoreDb)`. -/
def Monitor.getTableUserStats {ν : Type} (lib : GoLib ν) (m : Monitor)
    (conn : Conn (String × String × Int × Int × Int)) (c : Collection ν) (ignoreDb : String) :
    Collected ν :=
  let sql := getTableUserStats.sql ignoreDb
  let pre := [Event.Debug "getTableUserStats:call",
              Event.StatusUpdate m.name "Getting userstat table metrics", Event.Query sql]
  match conn sql with
  | Except.error err =>
    { ret := some err, c := c, trace := pre ++ [Event.Debug "getTableUserStats:return"] }
  | Except.ok rows =>
    let r := getTableUserStats.loop lib rows.scans c.Metrics
    { ret := afterLoop r.1 rows.err
      c := { c with Metrics := r.2 }
      trace := pre ++ [Event.RowsClose, Event.Debug "getTableUserStats:return"] }

/-- The query text `sql` that `getIndexUserStats` builds. -/
def getIndexUserStats.sql (ignoreDb : String) : String :=
  let sql := "SELECT TABLE_SCHEMA, TABLE_NAME, INDEX_NAME, ROWS_READ" ++
    " FROM INFORMATION_SCHEMA.INDEX_STATISTICS"
  if ignoreDb ≠ "" then sql ++ (" WHERE TABLE_SCHEMA NOT LIKE '" ++ ignoreDb ++ "'") else sql

/-- The `for rows.Next()` loop of `getIndexUserStats`. -/
def getIndexUserStats.loop {ν : Type} (lib : GoLib ν) :
    List (Except Error (String × String × String × Int)) → List (Metric ν) →
      Option Error × List (Metric ν)
  | [], metrics => (none, metrics)
  | Except.error err :: _, metrics => (some err, metrics)
  | Except.ok (tableSchema, tableName, indexName, rowsRead) :: rest, metrics =>
    let metricName :=
      "mysql/db." ++ tableSchema ++ "/t." ++ tableName ++ "/idx." ++ indexName ++ "/rows_read"
    let metricValue := lib.float64 rowsRead
    getIndexUserStats.loop lib rest
      (metrics ++ [{ Name := metricName, Type_ := "counter", Number := metricValue,
                     String_ := "" }])

/-- `(m *Monitor) getIndexUserStats(conn, c, ignoreDb)`. -/
def Monitor.getIndexUserStats {ν : Type} (lib : GoLib ν) (m : Monitor)
    (conn : Conn (String × String × String × Int)) (c : Collection ν) (ignoreDb : String) :
    Collected ν :=
  let sql := getIndexUserStats.sql ignoreDb
  let pre := [Event.Debug "getIndexUserStats:call",
              Event.StatusUpdate m.name "Getting userstat index metrics", Event.Query sql]
  match conn sql with
  | Except.error err =>
    { ret := some err, c := c, trace := pre ++ [Event.Debug "getIndexUserStats:return"] }
  | Except.ok rows =>
    let r := getIndexUserStats.loop lib rows.scans c.Metrics
    { ret := afterLoop r.1 rows.err
      c := { c with Metrics := r.2 }
      trace := pre ++ [Event.RowsClose, Event.Debug "getIndexUserStats:return"] }

/-! ## The tick case of `run` -/

/-- The locals `lastTs` and `lastError` of `run`. -/
structure RunState where
  lastTs : Int
  lastError : String
  deriving DecidableEq, Repr

/-- A `time.Time`: seconds since the Unix epoch and the nanoseconds within the
second. `now.UTC().Unix()` is `sec`. -/
structure Time where
  sec : Int
  nsec : Nat
  deriving DecidableEq, Repr

/-- The `m.logger.Warn(err)` that follows a collector returning an error. -/
def warnIfError : Option Error → List Event
  | some err => [Event.Warn err]
  | none => []

/-- The collector sequence of a tick, from `conn := m.conn.DB()` down to the
last `Warn`: `cfg` is what `m.config` points to and `c` the fresh collection.
The value is the collection afterwards and the effects; `none` is a panic. -/
def Monitor.collect {ν : Type} (lib : GoLib ν) (m : Monitor) (cfg : PerconaAgent.Config) (db : DB)
    (c : Collection ν) : Option (Collection ν × List Event) :=
  match m.GetShowStatusMetrics lib db.status c with
  | none => none
  | some r1 =>
    let r2 : Collected ν :=
      if cfg.InnoDB.length > 0 then
        let r := m.GetInnoDBMetrics lib db.innodb r1.c
        { r with trace := r.trace ++ warnIfError r.ret }
      else { ret := none, c := r1.c, trace := [] }
    let r3 : Collected ν :=
      if cfg.UserStats then
        let t := m.getTableUserStats lib db.tableStats r2.c cfg.UserStatsIgnoreDb
        let i := m.getIndexUserStats lib db.indexStats t.c cfg.UserStatsIgnoreDb
        { ret := none, c := i.c
          trace := t.trace ++ warnIfError t.ret ++ i.trace ++ warnIfError i.ret }
      else { ret := none, c := r2.c, trace := [] }
    some (r3.c, r1.trace ++ warnIfError r1.ret ++ r2.trace ++ r3.trace)

/-- The outcome of one tick: the locals of `run` afterwards, the collection the
tick built (after the collectors; `none` when the tick was skipped) and the
effects. -/
structure Tick (ν : Type) where
  state : RunState
  c : Option (Collection ν)
  trace : List Event

/-- The body of `case now := <-m.tickChan` in `run`. `accepted` is what the
sink does when the collection is offered: it takes it within 500 ms or not; a
send on a nil `m.collectionChan` is never taken. `none` is a panic (nil
dereference of `m.config`). -/
def Monitor.runTick {ν : Type} (lib : GoLib ν) (m : Monitor) (db : DB) (accepted : Bool)
    (now : Time) (s : RunState) : Option (Tick ν) :=
  if !m.connected then
    some { state := { s with lastError := "Not connected to MySQL" }
           c := none
           trace := [Event.Debug "run:collect:start", Event.Debug "run:collect:disconnected"] }
  else
    match m.config with
    | none => none
    | some cfg =>
      let c : Collection ν :=
        { Service := cfg.Service, InstanceId := cfg.InstanceId, Ts := now.sec, Metrics := [] }
      match m.collect lib cfg db c with
      | none => none
      | some (c, collected) =>
        let pre := [Event.Debug "run:collect:start", Event.StatusUpdate m.name "Running"] ++
          collected ++ [Event.StatusUpdate m.name "Sending metrics"]
        if c.Metrics.length > 0 then
          if accepted && m.collectionChan.isSome then
            some { state := { lastTs := c.Ts, lastError := "" }
                   c := some c
                   trace := pre ++ [Event.Send true, Event.Debug "run:collect:stop"] }
          else
            some { state := { s with lastError := "Spool timeout" }
                   c := some c
                   trace := pre ++ [Event.Send false,
                     Event.Debug "Lost MySQL metrics; timeout spooling after 500ms",
                     Event.Debug "run:collect:stop"] }
        else
          some { state := { s with lastError := "No metrics" }
                 c := some c
                 trace := pre ++ [Event.Debug "run:no metrics", Event.Debug "run:collect:stop"] }

/-- An effect is an offer of a collection to the sink. -/
def Event.isSend : Event → Bool
  | Event.Send _ => true
  | _ => false

/-! ## Row-wise description of the collectors

The claims describe each collector by what one row contributes. These
definitions follow that wording; the theorems compare the loops with them. -/

/-- The rows a loop scans before it ends: all of them, or those before the
first failing `Scan`. -/
def okPrefix {ρ : Type} : List (Except Error ρ) → List ρ
  | [] => []
  | Except.error _ :: _ => []
  | Except.ok r :: rest => r :: okPrefix rest

/-- The first failing `Scan`, if any. -/
def firstScanError {ρ : Type} : List (Except Error ρ) → Option Error
  | [] => none
  | Except.error err :: _ => some err
  | Except.ok _ :: rest => firstScanError rest

/-- The rows a collector processes given the answer to its query: none when
the query fails. -/
def processedRows {ρ : Type} : Except Error (Rows ρ) → List ρ
  | Except.error _ => []
  | Except.ok rows => okPrefix rows.scans

/-- The error a collector returns given the answer to its query: the error of
the query, else the first failing `Scan`, else `rows.Err()`. -/
def collectorError {ρ : Type} : Except Error (Rows ρ) → Option Error
  | Except.error err => some err
  | Except.ok rows => afterLoop (firstScanError rows.scans) rows.err

/-- The value a metric gets from a value string: the parsed number, `0.0`
when it does not parse. -/
def numberOf {ν : Type} (lib : GoLib ν) (value : String) : ν :=
  (lib.ParseFloat value).getD lib.zero

/-- A status row is mapped when its lowercased name is a key of the mapping. -/
def isMapped {ν : Type} (lib : GoLib ν) (cfg : Config) (row : String × String) : Bool :=
  (cfg.Status.lookup (lib.ToLower row.1)).isSome

/-- What a status row contributes: for a mapped row one metric named
`"mysql/"` + lowercased name with the mapped type, for other rows nothing. -/
def statusRowMetric {ν : Type} (lib : GoLib ν) (cfg : Config) (row : String × String) :
    Option (Metric ν) :=
  (cfg.Status.lookup (lib.ToLower row.1)).map fun metricType =>
    { Name := "mysql/" ++ lib.ToLower row.1, Type_ := metricType,
      Number := numberOf lib row.2, String_ := "" }

/-- What an InnoDB row `(name, subsystem, count, type)` contributes. -/
def innodbRowMetric {ν : Type} (lib : GoLib ν) (row : String × String × String × String) :
    Metric ν :=
  { Name := "mysql/innodb/" ++ lib.ToLower row.2.1 ++ "/" ++ lib.ToLower row.1
    Type_ := if row.2.2.2 = "value" then "gauge" else "counter"
    Number := numberOf lib row.2.2.1, String_ := "" }

/-- What a table usage row `(schema, table, read, changed, changed_x_indexes)`
contributes: three counters in this order. -/
def tableRowMetrics {ν : Type} (lib : GoLib ν) (row : String × String × Int × Int × Int) :
    List (Metric ν) :=
  [{ Name := "mysql/db." ++ row.1 ++ "/t." ++ row.2.1 ++ "/rows_read",
     Type_ := "counter", Number := lib.float64 row.2.2.1, String_ := "" },
   { Name := "mysql/db." ++ row.1 ++ "/t." ++ row.2.1 ++ "/rows_changed",
     Type_ := "counter", Number := lib.float64 row.2.2.2.1, String_ := "" },
   { Name := "mysql/db." ++ row.1 ++ "/t." ++ row.2.1 ++ "/rows_changed_x_indexes",
     Type_ := "counter", Number := lib.float64 row.2.2.2.2, String_ := "" }]

/-- What an index usage row `(schema, table, index, read)` contributes. -/
def indexRowMetric {ν : Type} (lib : GoLib ν) (row : String × String × String × Int) :
    Metric ν :=
  { Name := "mysql/db." ++ row.1 ++ "/t." ++ row.2.1 ++ "/idx." ++ row.2.2.1 ++ "/rows_read"
    Type_ := "counter", Number := lib.float64 row.2.2.2, String_ := "" }

/-- A text contains a part when the characters of the part occur in it in a
row. -/
def containsText (text part : String) : Prop := part.data <:+: text.data

/-- The `WHERE` clause of the usage queries for an ignore pattern. -/
def ignoreClause (ignoreDb : String) : String :=
  "WHERE TABLE_SCHEMA NOT LIKE '" ++ ignoreDb ++ "'"

/-! ## A concrete library for the examples -/

/-- Value of a string of decimal digits. -/
def parseDigits : List Char → Nat → Option Nat
  | [], acc => some acc
  | ch :: rest, acc =>
    if ch.isDigit then parseDigits rest (10 * acc + (ch.toNat - 48)) else none

/-- An instance of the library for the examples, with integers for numbers:
ASCII lowercasing, and parsing of non-empty strings of decimal digits. On
ASCII names and on such value strings it agrees with the Go library. -/
def exampleLib : GoLib Int where
  ToLower := fun s => String.mk (s.data.map Char.toLower)
  ParseFloat := fun s =>
    match s.data with
    | [] => none
    | ch :: rest => (parseDigits (ch :: rest) 0).map Int.ofNat
  zero := 0
  float64 := fun i => i

/-- A database answering every query with no row. -/
def emptyDB : DB where
  status := fun _ => Except.ok { scans := [], err := none }
  innodb := fun _ => Except.ok { scans := [], err := none }
  tableStats := fun _ => Except.ok { scans := [], err := none }
  indexStats := fun _ => Except.ok { scans := [], err := none }

/-- A configuration for the examples: two status variables, one InnoDB module,
user statistics on. -/
def exampleConfig : Config where
  Service := "mysql"
  InstanceId := 1
  Status := [("threads_connected", "gauge"), ("queries", "counter")]
  InnoDB := ["os"]
  UserStats := true
  UserStatsIgnoreDb := "test%"

/-- A never started monitor holding `exampleConfig`. -/
def exampleMonitor : Monitor := NewMonitor "mysql-monitor" (some exampleConfig) 0 0

/-- The example monitor once started and connected. -/
def connectedMonitor : Monitor :=
  { (exampleMonitor.Start (some 1) (some 2)).monitor with connected := true }

/-- The fresh collection of a tick at second 1400000000. -/
def exampleCollection : Collection Int :=
  { Service := "mysql", InstanceId := 1, Ts := 1400000000, Metrics := [] }

/-- Rows of a status query: a mapped gauge, an unmapped row, and a mapped
counter whose value is not a number. -/
def exampleStatusRows : List (String × String) :=
  [("Threads_connected", "5"), ("Uptime", "100"), ("Queries", "many")]

/-- Rows of the InnoDB metrics query, the second with a value that is not a
number. -/
def exampleInnoDBRows : List (String × String × String × String) :=
  [("OS_data_reads", "OS", "12", "status_counter"), ("Buffer_pool_size", "Server", "big", "value")]

/-- Rows of the table usage query. -/
def exampleTableRows : List (String × String × Int × Int × Int) :=
  [("shop", "orders", 10, 2, 4), ("shop", "items", 7, 0, 0)]

/-- Rows of the index usage query. -/
def exampleIndexRows : List (String × String × String × Int) :=
  [("shop", "orders", "PRIMARY", 10)]

/-- A connection answering every query with the given rows, all scanned
without error. -/
def connOf {ρ : Type} (rows : List ρ) : Conn ρ :=
  fun _ => Except.ok { scans := rows.map Except.ok, err := none }

/-- A table usage answer whose second row fails to scan. -/
def failingScanConn : Conn (String × String × Int × Int × Int) :=
  fun _ => Except.ok
    { scans := [Except.ok ("shop", "orders", 10, 2, 4),
                Except.error (Error.other "sql: Scan error"),
                Except.ok ("shop", "items", 7, 0, 0)]
      err := none }

/-- A collection that already holds one metric of an earlier collector. -/
def seededCollection : Collection Int :=
  { exampleCollection with
    Metrics := [{ Name := "mysql/queries", Type_ := "counter", Number := 3, String_ := "" }] }

/-- A database holding the example rows. -/
def exampleDB : DB where
  status := connOf exampleStatusRows
  innodb := connOf exampleInnoDBRows
  tableStats := connOf exampleTableRows
  indexStats := connOf exampleIndexRows

/-- A configuration whose only status key is spelled as MySQL prints it, with
an upper-case letter. -/
def mixedCaseConfig : Config :=
  { exampleConfig with Status := [("Threads_connected", "gauge")] }

/-! ## The connect sub-task -/

/-- How a run of `connect` over a given sequence of connection attempts ends:
it returned, it panicked on the nil `m.config`, or every given attempt failed
and it is still in its loop. -/
inductive ConnectEnd where
  | returned
  | panicked
  | trying
  deriving DecidableEq, Repr

/-- The outcome of `connect`: how it ended and its effects so far. -/
structure Connect where
  ending : ConnectEnd
  trace : List Event
  deriving DecidableEq, Repr

/-- The `for _, module := range m.config.InnoDB` loop of `connect`: each
statement is executed, a failure is logged and the loop goes on. -/
def connect.enableModules (exec : String → Option Error) : List String → List Event
  | [] => []
  | module :: rest =>
    let sql := "SET GLOBAL innodb_monitor_enable = '" ++ module ++ "'"
    [Event.Exec sql] ++
      (match exec sql with
       | some err => [Event.LogError sql err]
       | none => []) ++
      connect.enableModules exec rest

/-- The session setup of `connect` after a successful `Connect`. -/
def connect.setup (exec : String → Option Error) (cfg : Config) : List Event :=
  (if cfg.InnoDB.length > 0 then connect.enableModules exec cfg.InnoDB else []) ++
  (if cfg.UserStats then
    [Event.Exec "SET GLOBAL userstat=ON"] ++
      (match exec "SET GLOBAL userstat=ON" with
       | some err => [Event.LogError "SET GLOBAL userstat=ON" err]
       | none => [])
   else [])

/-- The `for` loop of `connect`, one iteration per element of `attempts`,
which lists what the successive `m.conn.Connect(1)` return (`none` is nil).
`err` is the variable `err` at the top of the iteration; `errText` is the text
`%s` prints for an error; `exec` is what `Exec` returns for a statement. -/
def Monitor.connect.loop (m : Monitor) (errText : Error → String)
    (exec : String → Option Error) : Option Error → List (Option Error) → Connect
  | _, [] => { ending := ConnectEnd.trying, trace := [] }
  | err, attempt :: rest =>
    let pre := [Event.Debug "connect:try",
      (match err with
       | some e => Event.StatusUpdate (m.name ++ "-mysql") ("Connecting (" ++ errText e ++ ")")
       | none => Event.StatusUpdate (m.name ++ "-mysql") "Connecting"),
      Event.ConnConnect]
    match attempt with
    | some e =>
      let r := Monitor.connect.loop m errText exec (some e) rest
      { r with trace := pre ++ [Event.Warn e] ++ r.trace }
    | none =>
      match m.config with
      | none => { ending := ConnectEnd.panicked, trace := pre }
      | some cfg =>
        { ending := ConnectEnd.returned
          trace := pre ++ connect.setup exec cfg ++
            [Event.Info "Connected", Event.StatusUpdate (m.name ++ "-mysql") "Connected",
             Event.ConnectedSend true] }

/-- `(m *Monitor) connect(err)`. The deferred `Debug("connect:return")` runs
when the function returns. -/
def Monitor.connect (m : Monitor) (errText : Error → String) (exec : String → Option Error)
    (err : Option Error) (attempts : List (Option Error)) : Connect :=
  let r := Monitor.connect.loop m errText exec err attempts
  { ending := r.ending
    trace := [Event.Debug "connect:call", Event.ConnClose] ++ r.trace ++
      (match r.ending with
       | ConnectEnd.returned => [Event.Debug "connect:return"]
       | _ => []) }

/-- The steps of the connection protocol among the effects: closing the
connection, a status update, a connection attempt, a send on the connectivity
channel. -/
def Event.isConnectStep : Event → Bool
  | Event.ConnClose => true
  | Event.StatusUpdate _ _ => true
  | Event.ConnConnect => true
  | Event.ConnectedSend _ => true
  | _ => false

/-- The statement of an `Exec` effect. -/
def Event.execSql : Event → Option String
  | Event.Exec sql => some sql
  | _ => none

/-- The session-setup statements of a configuration: one per InnoDB module,
then the user statistics switch if configured. -/
def setupStatements (cfg : Config) : List String :=
  cfg.InnoDB.map (fun module => "SET GLOBAL innodb_monitor_enable = '" ++ module ++ "'") ++
    (if cfg.UserStats then ["SET GLOBAL userstat=ON"] else [])

/-- The text of an error for the examples. -/
def exampleErrText : Error → String
  | Error.other msg => msg
  | Error.ServiceIsRunningError service => service

/-- A server on which every `SET GLOBAL` fails. -/
def failingExec : String → Option Error :=
  fun _ => some (Error.other "Access denied")

/-- A configuration with the status variables only. -/
def plainConfig : Config :=
  { exampleConfig with InnoDB := [], UserStats := false }

/-- A started and connected monitor holding `plainConfig`. -/
def plainMonitor : Monitor :=
  { connectedMonitor with config := some plainConfig }

/-- An effect is a query sent to the database. -/
def Event.isQuery : Event → Bool
  | Event.Query _ => true
  | _ => false

/-! ## The agent configuration (`agent/config.go`) -/

namespace agent

/-- The struct `Config` of `agent/config.go`; the Go map `Links` is an
association list. -/
structure Config where
  ApiHostname : String
  ApiKey : String
  AgentUuid : String
  PidFile : String
  LogFile : String
  LogLevel : String
  DataDir : String
  Links : List (String × String)
  Enable : List String
  Disable : List String
  deriving DecidableEq, Repr

/-- `(c *Config) Apply(cur)`: the returned error and the receiver afterwards.
`LogLevels` is the map `proto.LogLevels` of the protocol package, whose keys
are the valid level names. The assignments happen in the order of the source,
so the receiver of a call that returns the error holds those made before the
check of the level. -/
def Config.Apply (LogLevels : List (String × Nat)) (c cur : Config) : Option Error × Config :=
  let c := if cur.ApiHostname ≠ "" then { c with ApiHostname := cur.ApiHostname } else c
  let c := { c with ApiKey := cur.ApiKey }
  let c := { c with AgentUuid := cur.AgentUuid }
  let c := { c with PidFile := cur.PidFile }
  let c := if cur.LogFile ≠ "" then { c with LogFile := cur.LogFile } else c
  if cur.LogLevel ≠ "" then
    match LogLevels.lookup cur.LogLevel with
    | none => (some (Error.other ("Invalid log level: " ++ cur.LogLevel)), c)
    | some _ =>
      let c := { c with LogLevel := cur.LogLevel }
      let c := { c with DataDir := cur.DataDir }
      let c := { c with Enable := cur.Enable }
      let c := { c with Disable := cur.Disable }
      (none, c)
  else
    let c := { c with DataDir := cur.DataDir }
    let c := { c with Enable := cur.Enable }
    let c := { c with Disable := cur.Disable }
    (none, c)

/-- `(c *Config) Enabled(option)`. -/
def Config.Enabled (c : Config) (option : String) : Bool :=
  c.Enable.any (fun o => o = option)

/-- `(c *Config) Disabled(option)`. -/
def Config.Disabled (c : Config) (option : String) : Bool :=
  c.Disable.any (fun o => o = option)

/-- The defaults of `agent/config.go` (`API_HOSTNAME`, `LOG_FILE`,
`LOG_LEVEL`, `DATA_DIR`) as a configuration, with an API key and a link set. -/
def defaults : Config where
  ApiHostname := "cloud-api.percona.com"
  ApiKey := "default-key"
  AgentUuid := ""
  PidFile := ""
  LogFile := "/var/log/percona/agent.log"
  LogLevel := "info"
  DataDir := "/var/spool/percona/agent"
  Links := [("agent", "https://cloud-api.percona.com/agents/1")]
  Enable := []
  Disable := []

/-- What `LoadConfig` returns for a file that does not exist: `new(Config)`,
every field at its zero value. -/
def zeroConfig : Config where
  ApiHostname := ""
  ApiKey := ""
  AgentUuid := ""
  PidFile := ""
  LogFile := ""
  LogLevel := ""
  DataDir := ""
  Links := []
  Enable := []
  Disable := []

/-- A current config with a level that is not a key of the level table. -/
def badLevelConfig : Config :=
  { zeroConfig with ApiKey := "new-key", LogLevel := "verbose" }

/-- A table of level names for the examples. -/
def exampleLogLevels : List (String × Nat) :=
  [("debug", 7), ("info", 6), ("warning", 4), ("error", 3)]

end agent

/-! ## The system monitor (`mm/system`)

The sources hold the tests of the system monitor, not its code. The model
below is written from the specification of the delta-based counter collector
and of the memory snapshots, and from the metrics the tests expect. A snapshot
is taken as its lines, each split into its label and its numbers. -/

namespace system

/-- A line of a counter snapshot such as `/proc/stat`: the label and the
numbers that follow it. -/
abbrev StatLine := String × List Nat

/-- Modelled from the spec: the system monitor is not among the sources. Its
state is the previous sample of the delta tracker, the bucket counts last seen
for each CPU label. -/
structure Monitor where
  prev : List (String × List Nat)
  deriving DecidableEq, Repr

/-- Modelled from the spec: the constructor of the system monitor is not among
the sources; a fresh monitor has no previous sample. -/
def NewMonitor : Monitor := { prev := [] }

/-- The named time buckets of a CPU line, in column order. -/
def buckets : List String :=
  ["user", "nice", "system", "idle", "iowait", "irq", "softirq", "steal", "guest"]

/-- A number to 6 decimal digits, halves going up. -/
def round6 (q : ℚ) : ℚ := (⌊q * 1000000 + 1 / 2⌋ : ℚ) / 1000000

/-- A label is a CPU label when it starts with `cpu`: the aggregate line `cpu`
and the lines `cpu0`, `cpu1`, ... -/
def isCPU (label : String) : Bool := label.data.take 3 = ['c', 'p', 'u']

/-- The bucket deltas between the previous and the current counts of a CPU
label, over the nine named buckets. -/
def deltas (prev cur : List Nat) : List Int :=
  List.zipWith (fun (c p : Nat) => (c : Int) - (p : Int)) (cur.take 9) (prev.take 9)

/-- Modelled from the spec: the bucket gauges of a CPU label with a previous
sample. The sum of the bucket deltas is the elapsed-ticks denominator; nothing
is emitted when it is zero; otherwise each bucket is
`100 × bucket_delta / total_delta` to 6 decimal digits. -/
def cpuGauges (label : String) (prev cur : List Nat) : List (Metric ℚ) :=
  let ds := deltas prev cur
  let total := ds.sum
  if total = 0 then []
  else
    List.zipWith
      (fun (name : String) (d : Int) =>
        { Name := label ++ "/" ++ name, Type_ := "gauge",
          Number := round6 (100 * (d : ℚ) / (total : ℚ)), String_ := "" })
      buckets ds

/-- Modelled from the spec: the extended metric of a line, read from the
current snapshot alone: counters for the interrupt, context-switch and
process-creation counts, gauges for the running and blocked process counts. -/
def extMetrics (line : StatLine) : List (Metric ℚ) :=
  match line.2 with
  | [] => []
  | value :: _ =>
    if line.1 = "intr" ∨ line.1 = "ctxt" ∨ line.1 = "processes" then
      [{ Name := "cpu-ext/" ++ line.1, Type_ := "counter", Number := (value : ℚ), String_ := "" }]
    else if line.1 = "procs_running" ∨ line.1 = "procs_blocked" then
      [{ Name := "cpu-ext/" ++ line.1, Type_ := "gauge", Number := (value : ℚ), String_ := "" }]
    else []

/-- Modelled from the spec: what one line of the snapshot gives, `prev` being
the previous sample: the bucket gauges for a CPU label that has a previous
sample, the extended metric for the other lines. -/
def lineMetrics (prev : List (String × List Nat)) (line : StatLine) : List (Metric ℚ) :=
  if isCPU line.1 then
    match prev.lookup line.1 with
    | some p => cpuGauges line.1 p line.2
    | none => []
  else extMetrics line

/-- Modelled from the spec: the pass of `ProcStat` over the lines. `old` is
the previous sample at the start of the call, `new` the sample being stored
(the current counts of each CPU label are put in front of it), `metrics` the
metrics so far. -/
def ProcStat.loop (old : List (String × List Nat)) :
    List StatLine → List (String × List Nat) → List (Metric ℚ) → Monitor × List (Metric ℚ)
  | [], new, metrics => ({ prev := new }, metrics)
  | line :: rest, new, metrics =>
    ProcStat.loop old rest (if isCPU line.1 then line :: new else new)
      (metrics ++ lineMetrics old line)

/-- Modelled from the spec: `ProcStat(content)` of the system monitor, which
is not among the sources: the monitor afterwards and the metrics. -/
def Monitor.ProcStat (m : Monitor) (lines : List StatLine) : Monitor × List (Metric ℚ) :=
  ProcStat.loop m.prev lines m.prev []

/-- The pass of a stateless snapshot over its lines `(key, value)`: one metric
for each recognized line. -/
def snapshot.loop (recognized : String → Bool) (group type : String) :
    List (String × Nat) → List (Metric ℚ) → List (Metric ℚ)
  | [], metrics => metrics
  | line :: rest, metrics =>
    if recognized line.1 then
      snapshot.loop recognized group type rest
        (metrics ++ [{ Name := group ++ "/" ++ line.1, Type_ := type, Number := (line.2 : ℚ),
                       String_ := "" }])
    else snapshot.loop recognized group type rest metrics

/-- Modelled from the spec: `ProcMeminfo(content)` of the system monitor, which
is not among the sources. `recognized` tells the keys the monitor collects;
the monitor is returned as it was. -/
def Monitor.ProcMeminfo (recognized : String → Bool) (m : Monitor) (lines : List (String × Nat)) :
    Monitor × List (Metric ℚ) :=
  (m, snapshot.loop recognized "memory" "gauge" lines [])

/-- Modelled from the spec: `ProcVmstat(content)` of the system monitor, which
is not among the sources. -/
def Monitor.ProcVmstat (recognized : String → Bool) (m : Monitor) (lines : List (String × Nat)) :
    Monitor × List (Metric ℚ) :=
  (m, snapshot.loop recognized "vmstat" "counter" lines [])

/-- The body of `TestProcStat001`: a fresh monitor is given the snapshots in
turn and the metrics of the calls are appended. -/
def TestProcStat001.metrics : Monitor → List (List StatLine) → List (Metric ℚ) → List (Metric ℚ)
  | _, [], metrics => metrics
  | m, content :: files, metrics =>
    let got := m.ProcStat content
    TestProcStat001.metrics got.1 files (metrics ++ got.2)

/-- The first snapshot of the test. The fixture files are not among the
sources: the three snapshots here have the CPU totals written in the comment
of `TestProcStat001` (390817611, 97641434 and 97717127 for the first) and the
extended values the test expects; the split of the first totals into buckets
is arbitrary, and the advances of the buckets from one snapshot to the next
are the whole numbers that add up to the differences of the totals in that
comment (568992, 142174, 142284, then 373279, 93267, 93346). -/
def stat001_1 : List StatLine :=
  [("cpu", [1000000, 0, 500000, 389217611, 100000, 0, 0, 0, 0, 0]),
   ("cpu0", [250000, 0, 125000, 97241434, 25000, 0, 0, 0, 0, 0]),
   ("cpu1", [250000, 0, 125000, 97317127, 25000, 0, 0, 0, 0, 0]),
   ("intr", [39222211]),
   ("ctxt", [122462971]),
   ("btime", [1389186041]),
   ("processes", [227223]),
   ("procs_running", [1]),
   ("procs_blocked", [0])]

/-- The second snapshot of the test (see `stat001_1`). -/
def stat001_2 : List StatLine :=
  [("cpu", [1000236, 0, 500101, 389786253, 100013, 0, 0, 0, 0, 0]),
   ("cpu0", [250187, 0, 125056, 97383352, 25013, 0, 0, 0, 0, 0]),
   ("cpu1", [250038, 0, 125033, 97459340, 25000, 0, 0, 0, 0, 0]),
   ("intr", [39276666]),
   ("ctxt", [122631533]),
   ("btime", [1389186041]),
   ("processes", [227521]),
   ("procs_running", [2]),
   ("procs_blocked", [0])]

/-- The third snapshot of the test (see `stat001_1`). -/
def stat001_3 : List StatLine :=
  [("cpu", [1000379, 0, 500167, 390159312, 100024, 0, 0, 0, 0, 0]),
   ("cpu0", [250301, 0, 125095, 97476455, 25024, 0, 0, 0, 0, 0]),
   ("cpu1", [250058, 0, 125056, 97552643, 25000, 0, 0, 0, 0, 0]),
   ("intr", [39312673]),
   ("ctxt", [122742465]),
   ("btime", [1389186041]),
   ("processes", [227717]),
   ("procs_running", [3]),
   ("procs_blocked", [0])]

/-- The slice `expect` of `TestProcStat001`. -/
def TestProcStat001.expect : List (Metric ℚ) :=
  [{ Name := "cpu-ext/intr", Type_ := "counter", Number := 39222211, String_ := "" },
   { Name := "cpu-ext/ctxt", Type_ := "counter", Number := 122462971, String_ := "" },
   { Name := "cpu-ext/processes", Type_ := "counter", Number := 227223, String_ := "" },
   { Name := "cpu-ext/procs_running", Type_ := "gauge", Number := 1, String_ := "" },
   { Name := "cpu-ext/procs_blocked", Type_ := "gauge", Number := 0, String_ := "" },
   { Name := "cpu/user", Type_ := "gauge", Number := 41477 / 1000000, String_ := "" },
   { Name := "cpu/nice", Type_ := "gauge", Number := 0, String_ := "" },
   { Name := "cpu/system", Type_ := "gauge", Number := 17751 / 1000000, String_ := "" },
   { Name := "cpu/idle", Type_ := "gauge", Number := 99938488 / 1000000, String_ := "" },
   { Name := "cpu/iowait", Type_ := "gauge", Number := 2285 / 1000000, String_ := "" },
   { Name := "cpu/irq", Type_ := "gauge", Number := 0, String_ := "" },
   { Name := "cpu/softirq", Type_ := "gauge", Number := 0, String_ := "" },
   { Name := "cpu/steal", Type_ := "gauge", Number := 0, String_ := "" },
   { Name := "cpu/guest", Type_ := "gauge", Number := 0, String_ := "" },
   { Name := "cpu0/user", Type_ := "gauge", Number := 131529 / 1000000, String_ := "" },
   { Name := "cpu0/nice", Type_ := "gauge", Number := 0, String_ := "" },
   { Name := "cpu0/system", Type_ := "gauge", Number := 39388 / 1000000, String_ := "" },
   { Name := "cpu0/idle", Type_ := "gauge", Number := 99819939 / 1000000, String_ := "" },
   { Name := "cpu0/iowait", Type_ := "gauge", Number := 9144 / 1000000, String_ := "" },
   { Name := "cpu0/irq", Type_ := "gauge", Number := 0, String_ := "" },
   { Name := "cpu0/softirq", Type_ := "gauge", Number := 0, String_ := "" },
   { Name := "cpu0/steal", Type_ := "gauge", Number := 0, String_ := "" },
   { Name := "cpu0/guest", Type_ := "gauge", Number := 0, String_ := "" },
   { Name := "cpu1/user", Type_ := "gauge", Number := 26707 / 1000000, String_ := "" },
   { Name := "cpu1/nice", Type_ := "gauge", Number := 0, String_ := "" },
   { Name := "cpu1/system", Type_ := "gauge", Number := 23193 / 1000000, String_ := "" },
   { Name := "cpu1/idle", Type_ := "gauge", Number := 99950100 / 1000000, String_ := "" },
   { Name := "cpu1/iowait", Type_ := "gauge", Number := 0, String_ := "" },
   { Name := "cpu1/irq", Type_ := "gauge", Number := 0, String_ := "" },
   { Name := "cpu1/softirq", Type_ := "gauge", Number := 0, String_ := "" },
   { Name := "cpu1/steal", Type_ := "gauge", Number := 0, String_ := "" },
   { Name := "cpu1/guest", Type_ := "gauge", Number := 0, String_ := "" },
   { Name := "cpu-ext/intr", Type_ := "counter", Number := 39276666, String_ := "" },
   { Name := "cpu-ext/ctxt", Type_ := "counter", Number := 122631533, String_ := "" },
   { Name := "cpu-ext/processes", Type_ := "counter", Number := 227521, String_ := "" },
   { Name := "cpu-ext/procs_running", Type_ := "gauge", Number := 2, String_ := "" },
   { Name := "cpu-ext/procs_blocked", Type_ := "gauge", Number := 0, String_ := "" },
   { Name := "cpu/user", Type_ := "gauge", Number := 38309 / 1000000, String_ := "" },
   { Name := "cpu/nice", Type_ := "gauge", Number := 0, String_ := "" },
   { Name := "cpu/system", Type_ := "gauge", Number := 17681 / 1000000, String_ := "" },
   { Name := "cpu/idle", Type_ := "gauge", Number := 99941063 / 1000000, String_ := "" },
   { Name := "cpu/iowait", Type_ := "gauge", Number := 2947 / 1000000, String_ := "" },
   { Name := "cpu/irq", Type_ := "gauge", Number := 0, String_ := "" },
   { Name := "cpu/softirq", Type_ := "gauge", Number := 0, String_ := "" },
   { Name := "cpu/steal", Type_ := "gauge", Number := 0, String_ := "" },
   { Name := "cpu/guest", Type_ := "gauge", Number := 0, String_ := "" },
   { Name := "cpu0/user", Type_ := "gauge", Number := 122230 / 1000000, String_ := "" },
   { Name := "cpu0/nice", Type_ := "gauge", Number := 0, String_ := "" },
   { Name := "cpu0/system", Type_ := "gauge", Number := 41815 / 1000000, String_ := "" },
   { Name := "cpu0/idle", Type_ := "gauge", Number := 99824161 / 1000000, String_ := "" },
   { Name := "cpu0/iowait", Type_ := "gauge", Number := 11794 / 1000000, String_ := "" },
   { Name := "cpu0/irq", Type_ := "gauge", Number := 0, String_ := "" },
   { Name := "cpu0/softirq", Type_ := "gauge", Number := 0, String_ := "" },
   { Name := "cpu0/steal", Type_ := "gauge", Number := 0, String_ := "" },
   { Name := "cpu0/guest", Type_ := "gauge", Number := 0, String_ := "" },
   { Name := "cpu1/user", Type_ := "gauge", Number := 21426 / 1000000, String_ := "" },
   { Name := "cpu1/nice", Type_ := "gauge", Number := 0, String_ := "" },
   { Name := "cpu1/system", Type_ := "gauge", Number := 24640 / 1000000, String_ := "" },
   { Name := "cpu1/idle", Type_ := "gauge", Number := 99953935 / 1000000, String_ := "" },
   { Name := "cpu1/iowait", Type_ := "gauge", Number := 0, String_ := "" },
   { Name := "cpu1/irq", Type_ := "gauge", Number := 0, String_ := "" },
   { Name := "cpu1/softirq", Type_ := "gauge", Number := 0, String_ := "" },
   { Name := "cpu1/steal", Type_ := "gauge", Number := 0, String_ := "" },
   { Name := "cpu1/guest", Type_ := "gauge", Number := 0, String_ := "" },
   { Name := "cpu-ext/intr", Type_ := "counter", Number := 39312673, String_ := "" },
   { Name := "cpu-ext/ctxt", Type_ := "counter", Number := 122742465, String_ := "" },
   { Name := "cpu-ext/processes", Type_ := "counter", Number := 227717, String_ := "" },
   { Name := "cpu-ext/procs_running", Type_ := "gauge", Number := 3, String_ := "" },
   { Name := "cpu-ext/procs_blocked", Type_ := "gauge", Number := 0, String_ := "" }]

/-- The slice `expect` of `TestProcMeminfo001`. -/
def TestProcMeminfo001.expect : List (Metric ℚ) :=
  [{ Name := "memory/MemTotal", Type_ := "gauge", Number := 8046892, String_ := "" },
   { Name := "memory/MemFree", Type_ := "gauge", Number := 5273644, String_ := "" },
   { Name := "memory/Buffers", Type_ := "gauge", Number := 300684, String_ := "" },
   { Name := "memory/Cached", Type_ := "gauge", Number := 946852, String_ := "" },
   { Name := "memory/SwapCached", Type_ := "gauge", Number := 0, String_ := "" },
   { Name := "memory/Active", Type_ := "gauge", Number := 1936436, String_ := "" },
   { Name := "memory/Inactive", Type_ := "gauge", Number := 598916, String_ := "" },
   { Name := "memory/SwapTotal", Type_ := "gauge", Number := 8253436, String_ := "" },
   { Name := "memory/SwapFree", Type_ := "gauge", Number := 8253436, String_ := "" },
   { Name := "memory/Dirty", Type_ := "gauge", Number := 0, String_ := "" }]

/-- The slice `expect` of `TestProcVmstat001`. -/
def TestProcVmstat001.expect : List (Metric ℚ) :=
  [{ Name := "vmstat/numa_hit", Type_ := "counter", Number := 42594095, String_ := "" },
   { Name := "vmstat/numa_miss", Type_ := "counter", Number := 0, String_ := "" },
   { Name := "vmstat/numa_foreign", Type_ := "counter", Number := 0, String_ := "" },
   { Name := "vmstat/numa_interleave", Type_ := "counter", Number := 7297, String_ := "" },
   { Name := "vmstat/numa_local", Type_ := "counter", Number := 42594095, String_ := "" },
   { Name := "vmstat/numa_other", Type_ := "counter", Number := 0, String_ := "" },
   { Name := "vmstat/pgpgin", Type_ := "counter", Number := 646645, String_ := "" },
   { Name := "vmstat/pgpgout", Type_ := "counter", Number := 5401659, String_ := "" },
   { Name := "vmstat/pswpin", Type_ := "counter", Number := 0, String_ := "" },
   { Name := "vmstat/pswpout", Type_ := "counter", Number := 0, String_ := "" }]

/-- The keys of the metrics `TestProcMeminfo001` expects. -/
def memoryKeys : List String :=
  ["MemTotal", "MemFree", "Buffers", "Cached", "SwapCached", "Active", "Inactive", "SwapTotal",
   "SwapFree", "Dirty"]

/-- The keys of the metrics `TestProcVmstat001` expects. -/
def vmstatKeys : List String :=
  ["numa_hit", "numa_miss", "numa_foreign", "numa_interleave", "numa_local", "numa_other",
   "pgpgin", "pgpgout", "pswpin", "pswpout"]

/-- A memory snapshot with the values `TestProcMeminfo001` expects, in the
order of `/proc/meminfo`, and lines the test expects no metric for. The
fixture file is not among the sources. -/
def meminfo001 : List (String × Nat) :=
  [("MemTotal", 8046892), ("MemFree", 5273644), ("Buffers", 300684), ("Cached", 946852),
   ("SwapCached", 0), ("Active", 1936436), ("Inactive", 598916), ("Active(anon)", 1288304),
   ("Unevictable", 32), ("SwapTotal", 8253436), ("SwapFree", 8253436), ("Dirty", 0),
   ("Writeback", 0)]

/-- A virtual-memory snapshot with the values `TestProcVmstat001` expects, in
the order of `/proc/vmstat`, and lines the test expects no metric for. The
fixture file is not among the sources. -/
def vmstat001 : List (String × Nat) :=
  [("nr_free_pages", 1318411), ("numa_hit", 42594095), ("numa_miss", 0), ("numa_foreign", 0),
   ("numa_interleave", 7297), ("numa_local", 42594095), ("numa_other", 0),
   ("nr_anon_transparent_hugepages", 0), ("pgpgin", 646645), ("pgpgout", 5401659),
   ("pswpin", 0), ("pswpout", 0), ("pgalloc_dma", 0)]

end system

/-! ## Lifecycle theorems -/

/-- C1: on a monitor whose running flag is set, `Start` returns the
`ServiceIsRunningError` carrying the monitor name and leaves the monitor as it
was (tick channel, collection channel, running flag, config and every other
field); it spawns no run loop and updates no status. -/
theorem Start_running_rejects (m : Monitor) (tickChan collectionChan : Chan)
    (h : m.running = true) :
    (m.Start tickChan collectionChan).ret = some (Error.ServiceIsRunningError m.name) ∧
    (m.Start tickChan collectionChan).monitor = m ∧
    Event.GoRun ∉ (m.Start tickChan collectionChan).trace ∧
    (∀ e ∈ (m.Start tickChan collectionChan).trace, e.isStatusUpdate = false) := by
  simp [Monitor.Start, h, Event.isStatusUpdate]

theorem Start_running_rejects_witness :
    ((NewMonitor "mysql" none 0 0).Start (some 1) (some 2)).monitor.running = true ∧
    (((NewMonitor "mysql" none 0 0).Start (some 1) (some 2)).monitor.Start (some 3) (some 4)).ret
      = some (Error.ServiceIsRunningError "mysql") :=
  ⟨by decide,
   (Start_running_rejects ((NewMonitor "mysql" none 0 0).Start (some 1) (some 2)).monitor
      (some 3) (some 4) (by decide)).1⟩

/-- C2: on a monitor that is not running, `Stop` returns nil, updates no
status and leaves every field of the monitor as it was; a second `Stop` then
returns nil as well and leaves the state of the first. On any monitor, running
or not, `Stop` after a `Stop` that returned changes nothing and both return
nil. -/
theorem Stop_not_running_noop (m : Monitor) (h : m.running = false) :
    m.Stop.ret = none ∧ m.Stop.monitor = m ∧
    (∀ e ∈ m.Stop.trace, e.isStatusUpdate = false) ∧
    m.Stop.monitor.Stop.ret = none ∧ m.Stop.monitor.Stop.monitor = m.Stop.monitor ∧
    (∀ m0 : Monitor, m0.Stop.ret = none ∧ m0.Stop.monitor.Stop.ret = none ∧
      m0.Stop.monitor.Stop.monitor = m0.Stop.monitor ∧
      (∀ e ∈ m0.Stop.monitor.Stop.trace, e.isStatusUpdate = false)) := by
  refine ⟨?_, ?_, ?_, ?_, ?_, ?_⟩
  · simp [Monitor.Stop, h]
  · simp [Monitor.Stop, h]
  · simp [Monitor.Stop, h, Event.isStatusUpdate]
  · simp [Monitor.Stop, h]
  · simp [Monitor.Stop, h]
  · intro m0
    cases h0 : m0.running <;> simp [Monitor.Stop, h0, Event.isStatusUpdate]

theorem Stop_not_running_noop_witness :
    exampleMonitor.running = false ∧ exampleMonitor.Stop.ret = none ∧
    exampleMonitor.Stop.monitor = exampleMonitor :=
  ⟨by decide, (Stop_not_running_noop exampleMonitor (by decide)).1,
   (Stop_not_running_noop exampleMonitor (by decide)).2.1⟩

/-- C3: a monitor built by `NewMonitor` with a non-nil config and never
started is not running, yet `Config()` returns that config and not nil. -/
theorem Config_of_never_started :
    exampleMonitor.running = false ∧ exampleMonitor.Config = some exampleConfig ∧
    exampleMonitor.Config ≠ none := by
  decide

/-! ## The loops, row by row -/

theorem okPrefix_map_ok {ρ : Type} (rows : List ρ) :
    okPrefix (rows.map Except.ok) = rows := by
  induction rows with
  | nil => rfl
  | cons r rest ih => simp [okPrefix, ih]

theorem firstScanError_map_ok {ρ : Type} (rows : List ρ) :
    firstScanError (rows.map Except.ok) = none := by
  induction rows with
  | nil => rfl
  | cons r rest ih => simp [firstScanError, ih]

theorem showStatus_loop_eq {ν : Type} (lib : GoLib ν) (cfg : Config)
    (scans : List (Except Error (String × String))) (metrics : List (Metric ν)) :
    GetShowStatusMetrics.loop lib (some cfg) scans metrics =
      some (firstScanError scans,
        metrics ++ (okPrefix scans).filterMap (statusRowMetric lib cfg)) := by
  induction scans generalizing metrics with
  | nil => simp [GetShowStatusMetrics.loop, firstScanError, okPrefix]
  | cons scan rest ih =>
    cases scan with
    | error err => simp [GetShowStatusMetrics.loop, firstScanError, okPrefix]
    | ok row =>
      obtain ⟨statName, statValue⟩ := row
      cases hk : cfg.Status.lookup (lib.ToLower statName) with
      | none =>
        simp [GetShowStatusMetrics.loop, firstScanError, okPrefix, statusRowMetric, hk, ih]
      | some metricType =>
        cases hp : lib.ParseFloat statValue <;>
          simp [GetShowStatusMetrics.loop, firstScanError, okPrefix, statusRowMetric, numberOf,
            hk, hp, ih]

theorem innoDB_loop_eq {ν : Type} (lib : GoLib ν)
    (scans : List (Except Error (String × String × String × String)))
    (metrics : List (Metric ν)) :
    GetInnoDBMetrics.loop lib scans metrics =
      (firstScanError scans, metrics ++ (okPrefix scans).map (innodbRowMetric lib)) := by
  induction scans generalizing metrics with
  | nil => simp [GetInnoDBMetrics.loop, firstScanError, okPrefix]
  | cons scan rest ih =>
    cases scan with
    | error err => simp [GetInnoDBMetrics.loop, firstScanError, okPrefix]
    | ok row =>
      obtain ⟨statName, statSubsystem, statCount, statType⟩ := row
      cases hp : lib.ParseFloat statCount <;>
        simp [GetInnoDBMetrics.loop, firstScanError, okPrefix, innodbRowMetric, numberOf, hp, ih]

theorem tableUserStats_loop_eq {ν : Type} (lib : GoLib ν)
    (scans : List (Except Error (String × String × Int × Int × Int)))
    (metrics : List (Metric ν)) :
    getTableUserStats.loop lib scans metrics =
      (firstScanError scans, metrics ++ (okPrefix scans).flatMap (tableRowMetrics lib)) := by
  induction scans generalizing metrics with
  | nil => simp [getTableUserStats.loop, firstScanError, okPrefix]
  | cons scan rest ih =>
    cases scan with
    | error err => simp [getTableUserStats.loop, firstScanError, okPrefix]
    | ok row =>
      obtain ⟨tableSchema, tableName, rowsRead, rowsChanged, rowsChangedIndexes⟩ := row
      simp [getTableUserStats.loop, firstScanError, okPrefix, tableRowMetrics, ih]

theorem indexUserStats_loop_eq {ν : Type} (lib : GoLib ν)
    (scans : List (Except Error (String × String × String × Int)))
    (metrics : List (Metric ν)) :
    getIndexUserStats.loop lib scans metrics =
      (firstScanError scans, metrics ++ (okPrefix scans).map (indexRowMetric lib)) := by
  induction scans generalizing metrics with
  | nil => simp [getIndexUserStats.loop, firstScanError, okPrefix]
  | cons scan rest ih =>
    cases scan with
    | error err => simp [getIndexUserStats.loop, firstScanError, okPrefix]
    | ok row =>
      obtain ⟨tableSchema, tableName, indexName, rowsRead⟩ := row
      simp [getIndexUserStats.loop, firstScanError, okPrefix, indexRowMetric, ih]

/-! ## The collectors -/

theorem Monitor.GetShowStatusMetrics_eq {ν : Type} (lib : GoLib ν) (m : Monitor)
    (cfg : PerconaAgent.Config) (conn : Conn (String × String)) (c : Collection ν)
    (hcfg : m.config = some cfg) :
    ∃ r, m.GetShowStatusMetrics lib conn c = some r ∧
      r.ret = collectorError (conn GetShowStatusMetrics.sql) ∧
      r.c = { c with Metrics := c.Metrics ++
        (processedRows (conn GetShowStatusMetrics.sql)).filterMap (statusRowMetric lib cfg) } := by
  unfold Monitor.GetShowStatusMetrics
  cases hq : conn GetShowStatusMetrics.sql with
  | error err => simp [hq, collectorError, processedRows]
  | ok rows =>
    simp [hq, hcfg, showStatus_loop_eq, collectorError, processedRows]

theorem Monitor.GetInnoDBMetrics_eq {ν : Type} (lib : GoLib ν) (m : Monitor)
    (conn : Conn (String × String × String × String)) (c : Collection ν) :
    (m.GetInnoDBMetrics lib conn c).ret = collectorError (conn GetInnoDBMetrics.sql) ∧
    (m.GetInnoDBMetrics lib conn c).c = { c with Metrics := c.Metrics ++
      (processedRows (conn GetInnoDBMetrics.sql)).map (innodbRowMetric lib) } := by
  unfold Monitor.GetInnoDBMetrics
  cases hq : conn GetInnoDBMetrics.sql with
  | error err => simp [hq, collectorError, processedRows]
  | ok rows => simp [hq, innoDB_loop_eq, collectorError, processedRows]

theorem Monitor.getTableUserStats_eq {ν : Type} (lib : GoLib ν) (m : Monitor)
    (conn : Conn (String × String × Int × Int × Int)) (c : Collection ν) (ignoreDb : String) :
    (m.getTableUserStats lib conn c ignoreDb).ret =
      collectorError (conn (getTableUserStats.sql ignoreDb)) ∧
    (m.getTableUserStats lib conn c ignoreDb).c = { c with Metrics := c.Metrics ++
      (processedRows (conn (getTableUserStats.sql ignoreDb))).flatMap (tableRowMetrics lib) } := by
  unfold Monitor.getTableUserStats
  cases hq : conn (getTableUserStats.sql ignoreDb) with
  | error err => simp [hq, collectorError, processedRows]
  | ok rows => simp [hq, tableUserStats_loop_eq, collectorError, processedRows]

theorem Monitor.getIndexUserStats_eq {ν : Type} (lib : GoLib ν) (m : Monitor)
    (conn : Conn (String × String × String × Int)) (c : Collection ν) (ignoreDb : String) :
    (m.getIndexUserStats lib conn c ignoreDb).ret =
      collectorError (conn (getIndexUserStats.sql ignoreDb)) ∧
    (m.getIndexUserStats lib conn c ignoreDb).c = { c with Metrics := c.Metrics ++
      (processedRows (conn (getIndexUserStats.sql ignoreDb))).map (indexRowMetric lib) } := by
  unfold Monitor.getIndexUserStats
  cases hq : conn (getIndexUserStats.sql ignoreDb) with
  | error err => simp [hq, collectorError, processedRows]
  | ok rows => simp [hq, indexUserStats_loop_eq, collectorError, processedRows]

theorem processedRows_ok {ρ : Type} (rows : List ρ) (rowsErr : Option Error) :
    processedRows (Except.ok { scans := rows.map Except.ok, err := rowsErr }) = rows := by
  simp [processedRows, okPrefix_map_ok]

theorem collectorError_ok {ρ : Type} (rows : List ρ) (rowsErr : Option Error) :
    collectorError (Except.ok { scans := rows.map Except.ok, err := rowsErr }) = rowsErr := by
  simp [collectorError, firstScanError_map_ok, afterLoop]

theorem length_filterMap_statusRowMetric {ν : Type} (lib : GoLib ν) (cfg : Config)
    (rows : List (String × String)) :
    (rows.filterMap (statusRowMetric lib cfg)).length = (rows.filter (isMapped lib cfg)).length := by
  induction rows with
  | nil => rfl
  | cons row rest ih =>
    cases hk : cfg.Status.lookup (lib.ToLower row.1) <;>
      simp [List.filterMap_cons, List.filter_cons, statusRowMetric, isMapped, hk, ih]

/-- C4: when the status query returns the rows `rows`, `GetShowStatusMetrics`
appends to the collection, in row order, one metric for each row whose
lowercased name is a key of the mapping, named `"mysql/"` + lowercased name and
typed as the mapping says, and nothing for the other rows; the number of
appended metrics is the number of mapped rows. -/
theorem GetShowStatusMetrics_appends_mapped_rows {ν : Type} (lib : GoLib ν) (m : Monitor)
    (cfg : Config) (conn : Conn (String × String)) (c : Collection ν)
    (rows : List (String × String)) (rowsErr : Option Error)
    (hcfg : m.config = some cfg)
    (hq : conn GetShowStatusMetrics.sql = Except.ok { scans := rows.map Except.ok, err := rowsErr }) :
    ∃ r, m.GetShowStatusMetrics lib conn c = some r ∧
      r.c.Metrics = c.Metrics ++ rows.filterMap (statusRowMetric lib cfg) ∧
      (∀ row metricType, cfg.Status.lookup (lib.ToLower row.1) = some metricType →
        ∃ metric, statusRowMetric lib cfg row = some metric ∧
          metric.Name = "mysql/" ++ lib.ToLower row.1 ∧ metric.Type_ = metricType) ∧
      (∀ row, cfg.Status.lookup (lib.ToLower row.1) = none → statusRowMetric lib cfg row = none) ∧
      r.c.Metrics.length = c.Metrics.length + (rows.filter (isMapped lib cfg)).length := by
  obtain ⟨r, hr, -, hc⟩ := Monitor.GetShowStatusMetrics_eq lib m cfg conn c hcfg
  refine ⟨r, hr, ?_, ?_, ?_, ?_⟩
  · rw [hc, hq, processedRows_ok]
  · intro row metricType hk
    simp [statusRowMetric, hk]
  · intro row hk
    simp [statusRowMetric, hk]
  · rw [hc, hq, processedRows_ok]
    simp [length_filterMap_statusRowMetric]

theorem GetShowStatusMetrics_appends_mapped_rows_witness :
    exampleMonitor.config = some exampleConfig ∧
    ∃ r, exampleMonitor.GetShowStatusMetrics exampleLib (connOf exampleStatusRows)
        exampleCollection = some r ∧
      r.c.Metrics = exampleCollection.Metrics ++
        exampleStatusRows.filterMap (statusRowMetric exampleLib exampleConfig) :=
  ⟨rfl, (GetShowStatusMetrics_appends_mapped_rows exampleLib exampleMonitor exampleConfig
    (connOf exampleStatusRows) exampleCollection exampleStatusRows none rfl rfl).imp
      (fun _ h => ⟨h.1, h.2.1⟩)⟩

/-- C5, as stated, fails: with the key `"Threads_connected"` and the row
`"Threads_connected"`, equal even without ignoring case, the key is configured
as a gauge and no metric is emitted. -/
theorem GetShowStatusMetrics_mixed_case_key_unmatched :
    mixedCaseConfig.Status.lookup "Threads_connected" = some "gauge" ∧
    ((NewMonitor "mysql-monitor" (some mixedCaseConfig) 0 0).GetShowStatusMetrics exampleLib
      (connOf [("Threads_connected", "5")]) exampleCollection).map (fun r => r.c.Metrics)
      = some [] := by
  decide

/-- C5, amended: `GetShowStatusMetrics` looks the lowercased row name up in the
mapping as it is. Among the rows of the query, a row named `statName`
contributes one metric `"mysql/"` + lowercased name, with the type of the key
that is equal to the lowercased name, and nothing when no key is equal to the
lowercased name. -/
theorem GetShowStatusMetrics_matches_lowercased_name {ν : Type} (lib : GoLib ν) (m : Monitor)
    (cfg : Config) (conn : Conn (String × String)) (c : Collection ν)
    (before after : List (String × String)) (statName statValue : String)
    (rowsErr : Option Error) (hcfg : m.config = some cfg)
    (hq : conn GetShowStatusMetrics.sql = Except.ok
      { scans := (before ++ (statName, statValue) :: after).map Except.ok, err := rowsErr }) :
    ∃ r, m.GetShowStatusMetrics lib conn c = some r ∧
      r.c.Metrics = c.Metrics ++ before.filterMap (statusRowMetric lib cfg) ++
        (match cfg.Status.lookup (lib.ToLower statName) with
         | some metricType =>
           [{ Name := "mysql/" ++ lib.ToLower statName, Type_ := metricType,
              Number := numberOf lib statValue, String_ := "" }]
         | none => []) ++
        after.filterMap (statusRowMetric lib cfg) := by
  obtain ⟨r, hr, -, hc⟩ := Monitor.GetShowStatusMetrics_eq lib m cfg conn c hcfg
  refine ⟨r, hr, ?_⟩
  rw [hc, hq, processedRows_ok]
  cases hk : cfg.Status.lookup (lib.ToLower statName) <;>
    simp [List.filterMap_append, List.filterMap_cons, statusRowMetric, hk]

theorem GetShowStatusMetrics_matches_lowercased_name_witness :
    exampleMonitor.config = some exampleConfig ∧
    ∃ r, exampleMonitor.GetShowStatusMetrics exampleLib (connOf exampleStatusRows)
        exampleCollection = some r ∧
      r.c.Metrics =
        [{ Name := "mysql/threads_connected", Type_ := "gauge", Number := 5, String_ := "" },
         { Name := "mysql/queries", Type_ := "counter", Number := 0, String_ := "" }] :=
  ⟨rfl, (GetShowStatusMetrics_matches_lowercased_name exampleLib exampleMonitor exampleConfig
    (connOf exampleStatusRows) exampleCollection [] [("Uptime", "100"), ("Queries", "many")]
    "Threads_connected" "5" none rfl rfl).imp (fun _ h => ⟨h.1, h.2.trans (by decide)⟩)⟩

/-- C6: a value that does not parse as a float neither aborts the collector
nor drops its row. In `GetShowStatusMetrics` a mapped row with such a value
gives its metric with number `0.0`, between the metrics of the rows before and
after it; in `GetInnoDBMetrics` likewise for a row with such a count; both
collectors return nil when the query, the scans and `rows.Err()` succeed. -/
theorem unparsable_value_gives_zero {ν : Type} (lib : GoLib ν) (m : Monitor) (cfg : Config)
    (c : Collection ν)
    (statusConn : Conn (String × String)) (before after : List (String × String))
    (statName statValue metricType : String)
    (innodbConn : Conn (String × String × String × String))
    (before2 after2 : List (String × String × String × String))
    (name subsystem count type : String)
    (hcfg : m.config = some cfg)
    (hq : statusConn GetShowStatusMetrics.sql = Except.ok
      { scans := (before ++ (statName, statValue) :: after).map Except.ok, err := none })
    (hk : cfg.Status.lookup (lib.ToLower statName) = some metricType)
    (hv : lib.ParseFloat statValue = none)
    (hq2 : innodbConn GetInnoDBMetrics.sql = Except.ok
      { scans := (before2 ++ (name, subsystem, count, type) :: after2).map Except.ok,
        err := none })
    (hv2 : lib.ParseFloat count = none) :
    (∃ r, m.GetShowStatusMetrics lib statusConn c = some r ∧ r.ret = none ∧
      r.c.Metrics = c.Metrics ++ before.filterMap (statusRowMetric lib cfg) ++
        [{ Name := "mysql/" ++ lib.ToLower statName, Type_ := metricType,
           Number := lib.zero, String_ := "" }] ++
        after.filterMap (statusRowMetric lib cfg)) ∧
    (m.GetInnoDBMetrics lib innodbConn c).ret = none ∧
    (m.GetInnoDBMetrics lib innodbConn c).c.Metrics =
      c.Metrics ++ before2.map (innodbRowMetric lib) ++
        [{ Name := "mysql/innodb/" ++ lib.ToLower subsystem ++ "/" ++ lib.ToLower name,
           Type_ := if type = "value" then "gauge" else "counter",
           Number := lib.zero, String_ := "" }] ++
        after2.map (innodbRowMetric lib) := by
  obtain ⟨r, hr, hret, hc⟩ := Monitor.GetShowStatusMetrics_eq lib m cfg statusConn c hcfg
  obtain ⟨hret2, hc2⟩ := Monitor.GetInnoDBMetrics_eq lib m innodbConn c
  refine ⟨⟨r, hr, ?_, ?_⟩, ?_, ?_⟩
  · rw [hret, hq, collectorError_ok]
  · rw [hc, hq, processedRows_ok]
    simp [List.filterMap_append, List.filterMap_cons, statusRowMetric, numberOf, hk, hv]
  · rw [hret2, hq2, collectorError_ok]
  · rw [hc2, hq2, processedRows_ok]
    simp [innodbRowMetric, numberOf, hv2]

theorem unparsable_value_gives_zero_witness :
    exampleLib.ParseFloat "many" = none ∧ exampleLib.ParseFloat "big" = none ∧
    (∃ r, exampleMonitor.GetShowStatusMetrics exampleLib (connOf exampleStatusRows)
        exampleCollection = some r ∧ r.ret = none ∧
      r.c.Metrics =
        [{ Name := "mysql/threads_connected", Type_ := "gauge", Number := 5, String_ := "" },
         { Name := "mysql/queries", Type_ := "counter", Number := 0, String_ := "" }]) ∧
    (exampleMonitor.GetInnoDBMetrics exampleLib (connOf exampleInnoDBRows) exampleCollection).c.Metrics =
        [{ Name := "mysql/innodb/os/os_data_reads", Type_ := "counter", Number := 12,
           String_ := "" },
         { Name := "mysql/innodb/server/buffer_pool_size", Type_ := "gauge", Number := 0,
           String_ := "" }] :=
  have h := unparsable_value_gives_zero exampleLib exampleMonitor exampleConfig exampleCollection
    (connOf exampleStatusRows) [("Threads_connected", "5"), ("Uptime", "100")] []
    "Queries" "many" "counter"
    (connOf exampleInnoDBRows) [("OS_data_reads", "OS", "12", "status_counter")] []
    "Buffer_pool_size" "Server" "big" "value" rfl rfl (by decide) (by decide) rfl (by decide)
  ⟨by decide, by decide,
   h.1.imp (fun _ hr => ⟨hr.1, hr.2.1, hr.2.2.trans (by decide)⟩),
   h.2.2.trans (by decide)⟩

/-- C7: when the InnoDB metrics query returns the rows `rows`,
`GetInnoDBMetrics` appends one metric per row, in row order, named
`"mysql/innodb/"` + lowercased subsystem + `"/"` + lowercased name; its type is
`"gauge"` exactly when the declared type of the row is the string `"value"`,
and `"counter"` for every other declared type. -/
theorem GetInnoDBMetrics_one_metric_per_row {ν : Type} (lib : GoLib ν) (m : Monitor)
    (conn : Conn (String × String × String × String)) (c : Collection ν)
    (rows : List (String × String × String × String)) (rowsErr : Option Error)
    (hq : conn GetInnoDBMetrics.sql = Except.ok { scans := rows.map Except.ok, err := rowsErr }) :
    (m.GetInnoDBMetrics lib conn c).c.Metrics = c.Metrics ++ rows.map (innodbRowMetric lib) ∧
    (m.GetInnoDBMetrics lib conn c).c.Metrics.length = c.Metrics.length + rows.length ∧
    (∀ statName statSubsystem statCount statType : String,
      (innodbRowMetric lib (statName, statSubsystem, statCount, statType)).Name =
        "mysql/innodb/" ++ lib.ToLower statSubsystem ++ "/" ++ lib.ToLower statName ∧
      ((innodbRowMetric lib (statName, statSubsystem, statCount, statType)).Type_ = "gauge" ↔
        statType = "value") ∧
      (statType ≠ "value" →
        (innodbRowMetric lib (statName, statSubsystem, statCount, statType)).Type_ = "counter")) := by
  obtain ⟨-, hc⟩ := Monitor.GetInnoDBMetrics_eq lib m conn c
  refine ⟨?_, ?_, ?_⟩
  · rw [hc, hq, processedRows_ok]
  · rw [hc, hq, processedRows_ok]
    simp
  · intro statName statSubsystem statCount statType
    refine ⟨rfl, ?_, ?_⟩
    · by_cases h : statType = "value" <;> simp [innodbRowMetric, h]
    · intro h
      simp [innodbRowMetric, h]

theorem GetInnoDBMetrics_one_metric_per_row_witness :
    (exampleMonitor.GetInnoDBMetrics exampleLib (connOf exampleInnoDBRows)
      exampleCollection).c.Metrics.length = 0 + 2 :=
  (GetInnoDBMetrics_one_metric_per_row exampleLib exampleMonitor (connOf exampleInnoDBRows)
    exampleCollection exampleInnoDBRows none rfl).2.1

/-! ## User statistics -/

theorem where_clause_split (ignoreDb : String) :
    " WHERE TABLE_SCHEMA NOT LIKE '" ++ ignoreDb ++ "'" = " " ++ ignoreClause ignoreDb := by
  apply String.ext
  simp [ignoreClause, String.data_append]

theorem containsText_append_space (text part : String) :
    containsText (text ++ (" " ++ part)) part := by
  unfold containsText
  rw [String.data_append, String.data_append]
  exact (List.suffix_append _ _).isInfix.trans (List.suffix_append _ _).isInfix

theorem tableSql_contains_clause (ignoreDb : String) :
    containsText (getTableUserStats.sql ignoreDb) (ignoreClause ignoreDb) ↔ ignoreDb ≠ "" := by
  by_cases h : ignoreDb = ""
  · subst h
    simp only [ne_eq, not_true_eq_false, iff_false]
    intro hin
    have hmem : Char.ofNat 39 ∈ (getTableUserStats.sql "").data := hin.subset (by decide)
    revert hmem
    decide
  · simp only [ne_eq, h, not_false_eq_true, iff_true]
    simp only [getTableUserStats.sql, ne_eq, h, not_false_eq_true, if_true, where_clause_split]
    exact containsText_append_space _ _

theorem indexSql_contains_clause (ignoreDb : String) :
    containsText (getIndexUserStats.sql ignoreDb) (ignoreClause ignoreDb) ↔ ignoreDb ≠ "" := by
  by_cases h : ignoreDb = ""
  · subst h
    simp only [ne_eq, not_true_eq_false, iff_false]
    intro hin
    have hmem : Char.ofNat 39 ∈ (getIndexUserStats.sql "").data := hin.subset (by decide)
    revert hmem
    decide
  · simp only [ne_eq, h, not_false_eq_true, iff_true]
    simp only [getIndexUserStats.sql, ne_eq, h, not_false_eq_true, if_true, where_clause_split]
    exact containsText_append_space _ _

theorem length_flatMap_tableRowMetrics {ν : Type} (lib : GoLib ν)
    (rows : List (String × String × Int × Int × Int)) :
    (rows.flatMap (tableRowMetrics lib)).length = 3 * rows.length := by
  induction rows with
  | nil => rfl
  | cons row rest ih =>
    simp only [List.flatMap_cons, List.length_append, ih, List.length_cons]
    simp only [tableRowMetrics, List.length_cons, List.length_nil]
    omega

/-- C8: when the usage queries return the rows `tableRows` and `indexRows`,
`getTableUserStats` appends three counters per row (`rows_read`,
`rows_changed`, `rows_changed_x_indexes` under `mysql/db.<schema>/t.<table>/`,
in this order, with the three integer columns as numbers) and
`getIndexUserStats` one counter per row
(`mysql/db.<schema>/t.<table>/idx.<index>/rows_read`); the text each collector
sends as its query contains the clause
`WHERE TABLE_SCHEMA NOT LIKE '<ignoreDb>'` exactly when `ignoreDb` is not empty. -/
theorem user_stats_metrics_and_query {ν : Type} (lib : GoLib ν) (m : Monitor)
    (tableConn : Conn (String × String × Int × Int × Int))
    (indexConn : Conn (String × String × String × Int)) (c : Collection ν) (ignoreDb : String)
    (tableRows : List (String × String × Int × Int × Int))
    (indexRows : List (String × String × String × Int)) (tableErr indexErr : Option Error)
    (ht : tableConn (getTableUserStats.sql ignoreDb) =
      Except.ok { scans := tableRows.map Except.ok, err := tableErr })
    (hi : indexConn (getIndexUserStats.sql ignoreDb) =
      Except.ok { scans := indexRows.map Except.ok, err := indexErr }) :
    (m.getTableUserStats lib tableConn c ignoreDb).c.Metrics =
      c.Metrics ++ tableRows.flatMap (tableRowMetrics lib) ∧
    (m.getTableUserStats lib tableConn c ignoreDb).c.Metrics.length =
      c.Metrics.length + 3 * tableRows.length ∧
    (∀ (tableSchema tableName : String) (rowsRead rowsChanged rowsChangedIndexes : Int),
      tableRowMetrics lib (tableSchema, tableName, rowsRead, rowsChanged, rowsChangedIndexes) =
        [{ Name := "mysql/db." ++ tableSchema ++ "/t." ++ tableName ++ "/rows_read",
           Type_ := "counter", Number := lib.float64 rowsRead, String_ := "" },
         { Name := "mysql/db." ++ tableSchema ++ "/t." ++ tableName ++ "/rows_changed",
           Type_ := "counter", Number := lib.float64 rowsChanged, String_ := "" },
         { Name := "mysql/db." ++ tableSchema ++ "/t." ++ tableName ++ "/rows_changed_x_indexes",
           Type_ := "counter", Number := lib.float64 rowsChangedIndexes, String_ := "" }]) ∧
    (m.getIndexUserStats lib indexConn c ignoreDb).c.Metrics =
      c.Metrics ++ indexRows.map (indexRowMetric lib) ∧
    (∀ (tableSchema tableName indexName : String) (rowsRead : Int),
      indexRowMetric lib (tableSchema, tableName, indexName, rowsRead) =
        { Name := "mysql/db." ++ tableSchema ++ "/t." ++ tableName ++ "/idx." ++ indexName ++
            "/rows_read",
          Type_ := "counter", Number := lib.float64 rowsRead, String_ := "" }) ∧
    Event.Query (getTableUserStats.sql ignoreDb) ∈
      (m.getTableUserStats lib tableConn c ignoreDb).trace ∧
    Event.Query (getIndexUserStats.sql ignoreDb) ∈
      (m.getIndexUserStats lib indexConn c ignoreDb).trace ∧
    (containsText (getTableUserStats.sql ignoreDb) (ignoreClause ignoreDb) ↔ ignoreDb ≠ "") ∧
    (containsText (getIndexUserStats.sql ignoreDb) (ignoreClause ignoreDb) ↔ ignoreDb ≠ "") := by
  obtain ⟨-, hct⟩ := Monitor.getTableUserStats_eq lib m tableConn c ignoreDb
  obtain ⟨-, hci⟩ := Monitor.getIndexUserStats_eq lib m indexConn c ignoreDb
  refine ⟨?_, ?_, fun _ _ _ _ _ => rfl, ?_, fun _ _ _ _ => rfl, ?_, ?_,
    tableSql_contains_clause ignoreDb, indexSql_contains_clause ignoreDb⟩
  · rw [hct, ht, processedRows_ok]
  · rw [hct, ht, processedRows_ok]
    simp only [List.length_append, length_flatMap_tableRowMetrics]
  · rw [hci, hi, processedRows_ok]
  · simp [Monitor.getTableUserStats, ht]
  · simp [Monitor.getIndexUserStats, hi]

theorem user_stats_metrics_and_query_witness :
    (exampleMonitor.getTableUserStats exampleLib (connOf exampleTableRows) exampleCollection
      "test%").c.Metrics.length = 0 + 3 * 2 ∧
    (exampleMonitor.getIndexUserStats exampleLib (connOf exampleIndexRows) exampleCollection
      "test%").c.Metrics =
      [{ Name := "mysql/db.shop/t.orders/idx.PRIMARY/rows_read", Type_ := "counter",
         Number := 10, String_ := "" }] :=
  have h := user_stats_metrics_and_query exampleLib exampleMonitor (connOf exampleTableRows)
    (connOf exampleIndexRows) exampleCollection "test%" exampleTableRows exampleIndexRows
    none none rfl rfl
  ⟨h.2.1, h.2.2.2.1.trans (by decide)⟩

/-! ## Frame of the collectors -/

theorem okPrefix_prefix {ρ : Type} (scans : List (Except Error ρ)) :
    (okPrefix scans).map Except.ok <+: scans := by
  induction scans with
  | nil => exact List.prefix_refl _
  | cons scan rest ih =>
    cases scan with
    | error err => exact List.nil_prefix
    | ok row =>
      simp only [okPrefix, List.map_cons]
      exact (List.prefix_cons_inj _).2 ih

theorem showStatus_loop_appends {ν : Type} (lib : GoLib ν) (config : Option Config)
    (scans : List (Except Error (String × String))) (metrics : List (Metric ν))
    (res : Option Error × List (Metric ν))
    (h : GetShowStatusMetrics.loop lib config scans metrics = some res) :
    ∃ appended, res.2 = metrics ++ appended := by
  cases config with
  | some cfg =>
    rw [showStatus_loop_eq] at h
    exact ⟨_, by rw [← Option.some.inj h]⟩
  | none =>
    cases scans with
    | nil =>
      simp only [GetShowStatusMetrics.loop, Option.some.injEq] at h
      exact ⟨[], by rw [← h]; simp⟩
    | cons scan rest =>
      cases scan with
      | error err =>
        simp only [GetShowStatusMetrics.loop, Option.some.injEq] at h
        exact ⟨[], by rw [← h]; simp⟩
      | ok row =>
        obtain ⟨statName, statValue⟩ := row
        simp [GetShowStatusMetrics.loop] at h

theorem GetShowStatusMetrics_appends {ν : Type} (lib : GoLib ν) (m : Monitor)
    (conn : Conn (String × String)) (c : Collection ν) (r : Collected ν)
    (h : m.GetShowStatusMetrics lib conn c = some r) :
    ∃ appended, r.c.Metrics = c.Metrics ++ appended := by
  unfold Monitor.GetShowStatusMetrics at h
  cases hq : conn GetShowStatusMetrics.sql with
  | error err =>
    simp only [hq, Option.some.injEq] at h
    exact ⟨[], by rw [← h]; simp⟩
  | ok rows =>
    simp only [hq] at h
    cases hl : GetShowStatusMetrics.loop lib m.config rows.scans c.Metrics with
    | none => simp [hl] at h
    | some res =>
      obtain ⟨appended, happ⟩ := showStatus_loop_appends lib m.config rows.scans c.Metrics res hl
      simp only [hl, Option.some.injEq] at h
      exact ⟨appended, by rw [← h]; exact happ⟩

/-- C9: every collector only appends to the collection, on every answer of
the database (query error, failing scan, `rows.Err()`, or success). Whenever
`GetShowStatusMetrics` returns, and always for the three other collectors,
the metrics held before the call are a prefix of the metrics afterwards; the
appended metrics are the contributions of the processed rows, in row order,
and the processed rows are an initial segment of the rows of the query. -/
theorem collectors_only_append {ν : Type} (lib : GoLib ν) (m : Monitor) (cfg : Config)
    (statusConn : Conn (String × String))
    (innodbConn : Conn (String × String × String × String))
    (tableConn : Conn (String × String × Int × Int × Int))
    (indexConn : Conn (String × String × String × Int))
    (c : Collection ν) (ignoreDb : String) (hcfg : m.config = some cfg) :
    (∀ (m0 : Monitor) (r : Collected ν), m0.GetShowStatusMetrics lib statusConn c = some r →
      c.Metrics <+: r.c.Metrics) ∧
    (∃ r, m.GetShowStatusMetrics lib statusConn c = some r ∧
      r.c.Metrics = c.Metrics ++
        (processedRows (statusConn GetShowStatusMetrics.sql)).filterMap
          (statusRowMetric lib cfg)) ∧
    (m.GetInnoDBMetrics lib innodbConn c).c.Metrics = c.Metrics ++
      (processedRows (innodbConn GetInnoDBMetrics.sql)).map (innodbRowMetric lib) ∧
    (m.getTableUserStats lib tableConn c ignoreDb).c.Metrics = c.Metrics ++
      (processedRows (tableConn (getTableUserStats.sql ignoreDb))).flatMap
        (tableRowMetrics lib) ∧
    (m.getIndexUserStats lib indexConn c ignoreDb).c.Metrics = c.Metrics ++
      (processedRows (indexConn (getIndexUserStats.sql ignoreDb))).map (indexRowMetric lib) ∧
    (∀ (ρ : Type) (rows : Rows ρ),
      (processedRows (Except.ok rows)).map Except.ok <+: rows.scans) ∧
    (∀ (ρ : Type) (err : Error), processedRows (Except.error err : Except Error (Rows ρ)) = []) := by
  obtain ⟨r, hr, -, hc⟩ := Monitor.GetShowStatusMetrics_eq lib m cfg statusConn c hcfg
  refine ⟨?_, ⟨r, hr, by rw [hc]⟩, ?_, ?_, ?_, fun _ rows => okPrefix_prefix rows.scans,
    fun _ _ => rfl⟩
  · intro m0 r0 h0
    obtain ⟨appended, happ⟩ := GetShowStatusMetrics_appends lib m0 statusConn c r0 h0
    exact ⟨appended, happ.symm⟩
  · rw [(Monitor.GetInnoDBMetrics_eq lib m innodbConn c).2]
  · rw [(Monitor.getTableUserStats_eq lib m tableConn c ignoreDb).2]
  · rw [(Monitor.getIndexUserStats_eq lib m indexConn c ignoreDb).2]

theorem collectors_only_append_witness :
    exampleMonitor.config = some exampleConfig ∧
    (exampleMonitor.getTableUserStats exampleLib failingScanConn seededCollection "").c.Metrics =
      [{ Name := "mysql/queries", Type_ := "counter", Number := 3, String_ := "" },
       { Name := "mysql/db.shop/t.orders/rows_read", Type_ := "counter", Number := 10,
         String_ := "" },
       { Name := "mysql/db.shop/t.orders/rows_changed", Type_ := "counter", Number := 2,
         String_ := "" },
       { Name := "mysql/db.shop/t.orders/rows_changed_x_indexes", Type_ := "counter",
         Number := 4, String_ := "" }] :=
  ⟨rfl, (collectors_only_append exampleLib exampleMonitor exampleConfig
    (connOf exampleStatusRows) (connOf exampleInnoDBRows) failingScanConn
    (connOf exampleIndexRows) seededCollection "" rfl).2.2.2.1.trans (by decide)⟩

/-! ## The tick case of `run` -/

theorem warnIfError_no_send (ret : Option Error) : ∀ e ∈ warnIfError ret, e.isSend = false := by
  cases ret <;> simp [warnIfError, Event.isSend]

theorem GetShowStatusMetrics_no_send {ν : Type} (lib : GoLib ν) (m : Monitor)
    (conn : Conn (String × String)) (c : Collection ν) (r : Collected ν)
    (h : m.GetShowStatusMetrics lib conn c = some r) : ∀ e ∈ r.trace, e.isSend = false := by
  unfold Monitor.GetShowStatusMetrics at h
  cases hq : conn GetShowStatusMetrics.sql with
  | error err =>
    simp only [hq, Option.some.injEq] at h
    subst h
    simp [Event.isSend]
  | ok rows =>
    simp only [hq] at h
    cases hl : GetShowStatusMetrics.loop lib m.config rows.scans c.Metrics with
    | none => simp [hl] at h
    | some res =>
      simp only [hl, Option.some.injEq] at h
      subst h
      simp [Event.isSend]

theorem GetInnoDBMetrics_no_send {ν : Type} (lib : GoLib ν) (m : Monitor)
    (conn : Conn (String × String × String × String)) (c : Collection ν) :
    ∀ e ∈ (m.GetInnoDBMetrics lib conn c).trace, e.isSend = false := by
  unfold Monitor.GetInnoDBMetrics
  cases hq : conn GetInnoDBMetrics.sql <;> simp [hq, Event.isSend]

theorem getTableUserStats_no_send {ν : Type} (lib : GoLib ν) (m : Monitor)
    (conn : Conn (String × String × Int × Int × Int)) (c : Collection ν) (ignoreDb : String) :
    ∀ e ∈ (m.getTableUserStats lib conn c ignoreDb).trace, e.isSend = false := by
  unfold Monitor.getTableUserStats
  cases hq : conn (getTableUserStats.sql ignoreDb) <;> simp [hq, Event.isSend]

theorem getIndexUserStats_no_send {ν : Type} (lib : GoLib ν) (m : Monitor)
    (conn : Conn (String × String × String × Int)) (c : Collection ν) (ignoreDb : String) :
    ∀ e ∈ (m.getIndexUserStats lib conn c ignoreDb).trace, e.isSend = false := by
  unfold Monitor.getIndexUserStats
  cases hq : conn (getIndexUserStats.sql ignoreDb) <;> simp [hq, Event.isSend]

theorem collect_no_send {ν : Type} (lib : GoLib ν) (m : Monitor) (cfg : Config) (db : DB)
    (c : Collection ν) (res : Collection ν × List Event)
    (h : m.collect lib cfg db c = some res) : ∀ e ∈ res.2, e.isSend = false := by
  unfold Monitor.collect at h
  cases h1 : m.GetShowStatusMetrics lib db.status c with
  | none => simp [h1] at h
  | some r1 =>
    simp only [h1, Option.some.injEq] at h
    subst h
    intro e he
    simp only [List.mem_append] at he
    rcases he with ((he | he) | he) | he
    · exact GetShowStatusMetrics_no_send lib m db.status c r1 h1 e he
    · exact warnIfError_no_send _ e he
    · split at he
      · simp only [List.mem_append] at he
        rcases he with he | he
        · exact GetInnoDBMetrics_no_send lib m db.innodb r1.c e he
        · exact warnIfError_no_send _ e he
      · simp at he
    · split at he
      · simp only [List.mem_append] at he
        rcases he with ((he | he) | he) | he
        · exact getTableUserStats_no_send lib m db.tableStats _ _ e he
        · exact warnIfError_no_send _ e he
        · exact getIndexUserStats_no_send lib m db.indexStats _ _ e he
        · exact warnIfError_no_send _ e he
      · simp at he

theorem collect_returns {ν : Type} (lib : GoLib ν) (m : Monitor) (cfg : Config) (db : DB)
    (c : Collection ν) (hcfg : m.config = some cfg) :
    ∃ res, m.collect lib cfg db c = some res := by
  obtain ⟨r, hr, -, -⟩ := Monitor.GetShowStatusMetrics_eq lib m cfg db.status c hcfg
  simp [Monitor.collect, hr]

theorem collect_any_send {ν : Type} (lib : GoLib ν) (m : Monitor) (cfg : Config) (db : DB)
    (c : Collection ν) (res : Collection ν × List Event)
    (h : m.collect lib cfg db c = some res) : res.2.any Event.isSend = false := by
  rw [List.any_eq_false]
  intro e he
  simp [collect_no_send lib m cfg db c res h e he]

theorem isSend_Debug (msg : String) : (Event.Debug msg).isSend = false := rfl

theorem isSend_StatusUpdate (proc status : String) :
    (Event.StatusUpdate proc status).isSend = false := rfl

theorem isSend_Send (accepted : Bool) : (Event.Send accepted).isSend = true := rfl

theorem any_send_iff (trace : List Event) :
    (∃ e ∈ trace, e.isSend = true) ↔ trace.any Event.isSend = true := by
  simp [List.any_eq_true]

theorem no_send_iff (trace : List Event) :
    (∀ e ∈ trace, e.isSend = false) ↔ trace.any Event.isSend = false := by
  simp [List.any_eq_false]

/-- C10: a tick of a monitor with a config always ends. The collection is
offered to the sink only if it holds at least one metric; when the collectors
leave it with no metric, nothing is offered or sent, the last error becomes
`"No metrics"` and the last collected timestamp stays as it was. On a connected
monitor the collection of the tick is the one the collector sequence leaves. -/
theorem runTick_forwards_only_nonempty {ν : Type} (lib : GoLib ν) (m : Monitor) (cfg : Config)
    (db : DB) (accepted : Bool) (now : Time) (s : RunState) (hcfg : m.config = some cfg) :
    ∃ t, m.runTick lib db accepted now s = some t ∧
      ((∃ e ∈ t.trace, e.isSend = true) → ∃ c, t.c = some c ∧ c.Metrics ≠ []) ∧
      (∀ c, t.c = some c → c.Metrics = [] →
        (∀ e ∈ t.trace, e.isSend = false) ∧ t.state.lastError = "No metrics" ∧
          t.state.lastTs = s.lastTs) ∧
      (m.connected = true → ∃ c collected,
        m.collect lib cfg db { Service := cfg.Service, InstanceId := cfg.InstanceId,
                               Ts := now.sec, Metrics := [] } = some (c, collected) ∧
        t.c = some c) := by
  simp only [any_send_iff, no_send_iff]
  cases hconn : m.connected with
  | false => simp [Monitor.runTick, hconn, Event.isSend]
  | true =>
    obtain ⟨⟨c, collected⟩, hres⟩ := collect_returns lib m cfg db
      { Service := cfg.Service, InstanceId := cfg.InstanceId, Ts := now.sec, Metrics := [] } hcfg
    have hns : collected.any Event.isSend = false := collect_any_send lib m cfg db _ _ hres
    cases hm : c.Metrics with
    | nil =>
      simp [Monitor.runTick, hconn, hcfg, hres, hm, hns, List.any_append, isSend_Debug,
        isSend_StatusUpdate]
      intro e he
      rcases he with he | rfl | rfl | rfl
      · exact collect_no_send lib m cfg db _ _ hres e he
      · rfl
      · rfl
      · rfl
    | cons metric rest =>
      cases accepted <;> cases hch : m.collectionChan <;>
        simp [Monitor.runTick, hconn, hcfg, hres, hm, hns, hch, List.any_append, isSend_Debug,
          isSend_StatusUpdate, isSend_Send]

theorem runTick_forwards_only_nonempty_witness :
    connectedMonitor.config = some exampleConfig ∧
    (connectedMonitor.runTick exampleLib emptyDB true { sec := 1400000000, nsec := 0 }
      { lastTs := 1399999999, lastError := "" }).map (fun t => (t.state, t.c)) =
      some ({ lastTs := 1399999999, lastError := "No metrics" },
        some exampleCollection) ∧
    ∃ t, connectedMonitor.runTick exampleLib emptyDB true { sec := 1400000000, nsec := 0 }
        { lastTs := 1399999999, lastError := "" } = some t ∧
      ((∃ e ∈ t.trace, e.isSend = true) → ∃ c, t.c = some c ∧ c.Metrics ≠ []) :=
  ⟨rfl, by decide,
   (runTick_forwards_only_nonempty exampleLib connectedMonitor exampleConfig emptyDB true
      { sec := 1400000000, nsec := 0 } { lastTs := 1399999999, lastError := "" } rfl).imp
      (fun _ h => ⟨h.1, h.2.1⟩)⟩

theorem collect_keeps_stamp {ν : Type} (lib : GoLib ν) (m : Monitor) (cfg : Config) (db : DB)
    (c : Collection ν) (res : Collection ν × List Event) (hcfg : m.config = some cfg)
    (h : m.collect lib cfg db c = some res) :
    res.1.Ts = c.Ts ∧ res.1.Service = c.Service ∧ res.1.InstanceId = c.InstanceId := by
  obtain ⟨r1, hr1, -, hc1⟩ := Monitor.GetShowStatusMetrics_eq lib m cfg db.status c hcfg
  unfold Monitor.collect at h
  simp only [hr1, Option.some.injEq] at h
  subst h
  by_cases hi : cfg.InnoDB.length > 0 <;> by_cases hu : cfg.UserStats = true <;>
    simp [hi, hu, (Monitor.getIndexUserStats_eq lib m db.indexStats _ cfg.UserStatsIgnoreDb).2,
      (Monitor.getTableUserStats_eq lib m db.tableStats _ cfg.UserStatsIgnoreDb).2,
      (Monitor.GetInnoDBMetrics_eq lib m db.innodb _).2, hc1]

theorem runTick_connected_collection {ν : Type} (lib : GoLib ν) (m : Monitor) (cfg : Config)
    (db : DB) (accepted : Bool) (now : Time) (s : RunState) (hconn : m.connected = true)
    (hcfg : m.config = some cfg) :
    ∃ t c collected, m.runTick lib db accepted now s = some t ∧
      m.collect lib cfg db { Service := cfg.Service, InstanceId := cfg.InstanceId,
                             Ts := now.sec, Metrics := [] } = some (c, collected) ∧
      t.c = some c := by
  obtain ⟨⟨c, collected⟩, hres⟩ := collect_returns lib m cfg db
    { Service := cfg.Service, InstanceId := cfg.InstanceId, Ts := now.sec, Metrics := [] } hcfg
  cases hm : c.Metrics with
  | nil => exact ⟨_, c, collected, by simp [Monitor.runTick, hconn, hcfg, hres, hm]; rfl, hres, rfl⟩
  | cons metric rest =>
    cases hacc : (accepted && m.collectionChan.isSome)
    · exact ⟨_, c, collected, by simp [Monitor.runTick, hconn, hcfg, hres, hm, hacc]; rfl,
        hres, rfl⟩
    · exact ⟨_, c, collected, by simp [Monitor.runTick, hconn, hcfg, hres, hm, hacc]; rfl,
        hres, rfl⟩

/-- C11: on a tick of a connected monitor whose collectors leave a non-empty
collection `c`, the collection carries the tick time in unix seconds. If the
sink takes it within the bound, the last error is cleared and the last
collected timestamp becomes `c.Ts`. If the sink does not take it, the last
error becomes `"Spool timeout"`, the timestamp stays as it was, nothing is
delivered, and the following tick offers only the collection it builds itself:
the dropped one is not kept anywhere. -/
theorem runTick_delivery_or_timeout {ν : Type} (lib : GoLib ν) (m : Monitor) (cfg : Config)
    (db : DB) (accepted : Bool) (now : Time) (s : RunState) (c : Collection ν)
    (collected : List Event) (hconn : m.connected = true) (hcfg : m.config = some cfg)
    (hres : m.collect lib cfg db { Service := cfg.Service, InstanceId := cfg.InstanceId,
                                   Ts := now.sec, Metrics := [] } = some (c, collected))
    (hne : c.Metrics ≠ []) :
    ∃ t, m.runTick lib db accepted now s = some t ∧ t.c = some c ∧ c.Ts = now.sec ∧
      ((accepted = true ∧ m.collectionChan.isSome = true) →
        t.state = { lastTs := c.Ts, lastError := "" } ∧ Event.Send true ∈ t.trace) ∧
      (¬ (accepted = true ∧ m.collectionChan.isSome = true) →
        t.state = { lastTs := s.lastTs, lastError := "Spool timeout" } ∧
        Event.Send false ∈ t.trace ∧ Event.Send true ∉ t.trace) ∧
      (∀ (db2 : DB) (accepted2 : Bool) (now2 : Time), ∃ t2,
        m.runTick lib db2 accepted2 now2 t.state = some t2 ∧
        ∀ c2, t2.c = some c2 → ∃ collected2,
          m.collect lib cfg db2 { Service := cfg.Service, InstanceId := cfg.InstanceId,
                                  Ts := now2.sec, Metrics := [] } = some (c2, collected2)) := by
  have hts := (collect_keeps_stamp lib m cfg db _ _ hcfg hres).1
  have hns : Event.Send true ∉ collected := fun hmem => by
    have := collect_no_send lib m cfg db _ _ hres _ hmem
    simp [isSend_Send] at this
  have hnext : ∀ (s2 : RunState) (db2 : DB) (accepted2 : Bool) (now2 : Time), ∃ t2,
      m.runTick lib db2 accepted2 now2 s2 = some t2 ∧
      ∀ c2, t2.c = some c2 → ∃ collected2,
        m.collect lib cfg db2 { Service := cfg.Service, InstanceId := cfg.InstanceId,
                                Ts := now2.sec, Metrics := [] } = some (c2, collected2) := by
    intro s2 db2 accepted2 now2
    obtain ⟨t2, c2, collected2, ht2, hcol, htc⟩ :=
      runTick_connected_collection lib m cfg db2 accepted2 now2 s2 hconn hcfg
    exact ⟨t2, ht2, fun c3 hc3 =>
      ⟨collected2, by rw [htc] at hc3; rw [← Option.some.inj hc3]; exact hcol⟩⟩
  have key : ∃ t, m.runTick lib db accepted now s = some t ∧ t.c = some c ∧
      ((accepted = true ∧ m.collectionChan.isSome = true) →
        t.state = { lastTs := c.Ts, lastError := "" } ∧ Event.Send true ∈ t.trace) ∧
      (¬ (accepted = true ∧ m.collectionChan.isSome = true) →
        t.state = { lastTs := s.lastTs, lastError := "Spool timeout" } ∧
        Event.Send false ∈ t.trace ∧ Event.Send true ∉ t.trace) := by
    cases hm : c.Metrics with
    | nil => exact absurd hm hne
    | cons metric rest =>
      cases accepted <;> cases hch : m.collectionChan <;>
        simp [Monitor.runTick, hconn, hcfg, hres, hm, hch, hns]
  obtain ⟨t, ht, htc, hyes, hno⟩ := key
  exact ⟨t, ht, htc, hts, hyes, hno, hnext t.state⟩

theorem runTick_delivery_or_timeout_witness :
    ∃ t, plainMonitor.runTick exampleLib exampleDB true { sec := 1400000000, nsec := 7 }
        { lastTs := 1399999999, lastError := "No metrics" } = some t ∧
      t.state = { lastTs := 1400000000, lastError := "" } :=
  (runTick_delivery_or_timeout exampleLib plainMonitor plainConfig exampleDB true
    { sec := 1400000000, nsec := 7 } { lastTs := 1399999999, lastError := "No metrics" }
    { Service := "mysql", InstanceId := 1, Ts := 1400000000,
      Metrics := [{ Name := "mysql/threads_connected", Type_ := "gauge", Number := 5,
                    String_ := "" },
                  { Name := "mysql/queries", Type_ := "counter", Number := 0, String_ := "" }] }
    [Event.Debug "GetShowStatusMetrics:call",
     Event.StatusUpdate "mysql-monitor" "Getting global status metrics",
     Event.Query "SHOW /*!50002 GLOBAL */ STATUS", Event.RowsClose,
     Event.Debug "GetShowStatusMetrics:return"]
    rfl rfl (by decide) (by decide)).imp
    (fun _ h => ⟨h.1, (h.2.2.2.1 ⟨rfl, rfl⟩).1⟩)

/-- C12, as stated, fails on the text of the error: on a tick of a monitor that
is not connected the last error becomes `"Not connected to MySQL"`, which is
not the string `"Not connected"`. -/
theorem runTick_disconnected_text :
    exampleMonitor.connected = false ∧
    (exampleMonitor.runTick exampleLib exampleDB true { sec := 1400000000, nsec := 0 }
      { lastTs := 0, lastError := "" }).map (fun t => t.state.lastError) =
      some "Not connected to MySQL" ∧
    (exampleMonitor.runTick exampleLib exampleDB true { sec := 1400000000, nsec := 0 }
      { lastTs := 0, lastError := "" }).map (fun t => t.state.lastError) ≠
      some "Not connected" := by
  decide

/-- C12, amended: a tick received while the connected flag is false records
`"Not connected to MySQL"` as the last error and is skipped. The tick only
writes two debug lines: no collector is invoked (no query, no status update,
so the status is never set to `"Running"`), no collection is built, nothing is
offered to the sink, and the last collected timestamp stays as it was. -/
theorem runTick_disconnected_skips {ν : Type} (lib : GoLib ν) (m : Monitor) (db : DB)
    (accepted : Bool) (now : Time) (s : RunState) (hconn : m.connected = false) :
    ∃ t : Tick ν, m.runTick lib db accepted now s = some t ∧
      t.state = { lastTs := s.lastTs, lastError := "Not connected to MySQL" } ∧
      t.c = none ∧
      t.trace = [Event.Debug "run:collect:start", Event.Debug "run:collect:disconnected"] ∧
      (∀ e ∈ t.trace, e.isQuery = false ∧ e.isStatusUpdate = false ∧ e.isSend = false) ∧
      Event.StatusUpdate m.name "Running" ∉ t.trace := by
  refine ⟨_, by simp [Monitor.runTick, hconn]; rfl, rfl, rfl, rfl, ?_, ?_⟩
  · intro e he
    simp only [List.mem_cons, List.mem_singleton, List.not_mem_nil, or_false] at he
    rcases he with rfl | rfl <;> exact ⟨rfl, rfl, rfl⟩
  · simp

theorem runTick_disconnected_skips_witness :
    exampleMonitor.connected = false ∧
    ∃ t : Tick Int, exampleMonitor.runTick exampleLib exampleDB true
        { sec := 1400000000, nsec := 0 } { lastTs := 1399999999, lastError := "" } = some t ∧
      t.state = { lastTs := 1399999999, lastError := "Not connected to MySQL" } :=
  ⟨rfl, (runTick_disconnected_skips exampleLib exampleMonitor exampleDB true
    { sec := 1400000000, nsec := 0 } { lastTs := 1399999999, lastError := "" } rfl).imp
    (fun _ h => ⟨h.1, h.2.1⟩)⟩

/-! ## The agent configuration -/

/-- C15, as stated, fails: applying the all-zero config of a missing file to
the defaults returns nil, and the receiver keeps its own `ApiHostname`,
`LogFile` and `LogLevel`, none of which equals the field of `cur`. -/
theorem Apply_keeps_fields_counterexample :
    (agent.Config.Apply agent.exampleLogLevels agent.defaults agent.zeroConfig).1 = none ∧
    (agent.Config.Apply agent.exampleLogLevels agent.defaults agent.zeroConfig).2.ApiHostname
      = "cloud-api.percona.com" ∧
    (agent.Config.Apply agent.exampleLogLevels agent.defaults agent.zeroConfig).2.ApiHostname
      ≠ agent.zeroConfig.ApiHostname ∧
    (agent.Config.Apply agent.exampleLogLevels agent.defaults agent.zeroConfig).2.LogFile
      ≠ agent.zeroConfig.LogFile ∧
    (agent.Config.Apply agent.exampleLogLevels agent.defaults agent.zeroConfig).2.LogLevel
      ≠ agent.zeroConfig.LogLevel := by
  decide

/-- C15, amended: when `Apply` returns nil, the receiver has the `ApiKey`,
`AgentUuid`, `PidFile`, `DataDir`, `Enable` and `Disable` of `cur`; its
`ApiHostname`, `LogFile` and `LogLevel` are those of `cur` where `cur` has a
non-empty one and the receiver's own otherwise. -/
theorem Apply_overwrites_when_nil (LogLevels : List (String × Nat)) (c cur : agent.Config)
    (h : (agent.Config.Apply LogLevels c cur).1 = none) :
    (agent.Config.Apply LogLevels c cur).2.ApiKey = cur.ApiKey ∧
    (agent.Config.Apply LogLevels c cur).2.AgentUuid = cur.AgentUuid ∧
    (agent.Config.Apply LogLevels c cur).2.PidFile = cur.PidFile ∧
    (agent.Config.Apply LogLevels c cur).2.DataDir = cur.DataDir ∧
    (agent.Config.Apply LogLevels c cur).2.Enable = cur.Enable ∧
    (agent.Config.Apply LogLevels c cur).2.Disable = cur.Disable ∧
    (agent.Config.Apply LogLevels c cur).2.ApiHostname =
      (if cur.ApiHostname ≠ "" then cur.ApiHostname else c.ApiHostname) ∧
    (agent.Config.Apply LogLevels c cur).2.LogFile =
      (if cur.LogFile ≠ "" then cur.LogFile else c.LogFile) ∧
    (agent.Config.Apply LogLevels c cur).2.LogLevel =
      (if cur.LogLevel ≠ "" then cur.LogLevel else c.LogLevel) := by
  unfold agent.Config.Apply at h ⊢
  by_cases h1 : cur.ApiHostname = "" <;> by_cases h2 : cur.LogFile = "" <;>
    by_cases h3 : cur.LogLevel = "" <;>
    cases h4 : LogLevels.lookup cur.LogLevel <;>
    simp [h1, h2, h3, h4] at h ⊢

theorem Apply_overwrites_when_nil_witness :
    (agent.Config.Apply agent.exampleLogLevels agent.defaults agent.zeroConfig).1 = none ∧
    (agent.Config.Apply agent.exampleLogLevels agent.defaults agent.zeroConfig).2.ApiKey = "" :=
  ⟨by decide, (Apply_overwrites_when_nil agent.exampleLogLevels agent.defaults agent.zeroConfig
    (by decide)).1⟩

/-- C18, as stated, fails on atomicity: applying a config with the unknown
level `"verbose"` returns the invalid-log-level error, and the receiver's
`ApiKey` has already been overwritten. -/
theorem Apply_error_not_atomic :
    (agent.Config.Apply agent.exampleLogLevels agent.defaults agent.badLevelConfig).1 =
      some (Error.other "Invalid log level: verbose") ∧
    agent.defaults.ApiKey = "default-key" ∧
    (agent.Config.Apply agent.exampleLogLevels agent.defaults agent.badLevelConfig).2.ApiKey =
      "new-key" ∧
    (agent.Config.Apply agent.exampleLogLevels agent.defaults agent.badLevelConfig).2 ≠
      agent.defaults := by
  decide

/-- C18, amended: `Apply` returns an error exactly when `cur.LogLevel` is not
empty and is not a key of the level table, and the error is then
`"Invalid log level: "` followed by the level. When it returns that error, the
receiver already holds what is assigned before the level is checked
(`ApiKey`, `AgentUuid`, `PidFile` of `cur`; `ApiHostname` and `LogFile` of
`cur` where non-empty), and its `LogLevel`, `DataDir`, `Links`, `Enable` and
`Disable` are as before the call. -/
theorem Apply_error_iff_and_assigned_before (LogLevels : List (String × Nat)) (c cur : agent.Config) :
    ((agent.Config.Apply LogLevels c cur).1 ≠ none ↔
      (cur.LogLevel ≠ "" ∧ LogLevels.lookup cur.LogLevel = none)) ∧
    ((agent.Config.Apply LogLevels c cur).1 ≠ none →
      (agent.Config.Apply LogLevels c cur).1 =
        some (Error.other ("Invalid log level: " ++ cur.LogLevel)) ∧
      (agent.Config.Apply LogLevels c cur).2 =
        { c with
          ApiHostname := if cur.ApiHostname ≠ "" then cur.ApiHostname else c.ApiHostname
          ApiKey := cur.ApiKey
          AgentUuid := cur.AgentUuid
          PidFile := cur.PidFile
          LogFile := if cur.LogFile ≠ "" then cur.LogFile else c.LogFile }) := by
  unfold agent.Config.Apply
  by_cases h1 : cur.ApiHostname = "" <;> by_cases h2 : cur.LogFile = "" <;>
    by_cases h3 : cur.LogLevel = "" <;>
    cases h4 : LogLevels.lookup cur.LogLevel <;>
    simp [h1, h2, h3, h4]

theorem Apply_error_iff_and_assigned_before_witness :
    (agent.Config.Apply agent.exampleLogLevels agent.defaults agent.badLevelConfig).1 ≠ none ∧
    (agent.Config.Apply agent.exampleLogLevels agent.defaults agent.badLevelConfig).2 =
      { agent.defaults with ApiKey := "new-key" } :=
  ⟨by decide,
   ((Apply_error_iff_and_assigned_before agent.exampleLogLevels agent.defaults agent.badLevelConfig).2
      (by decide)).2.trans (by decide)⟩

/-! ## The connect sub-task -/

theorem enableModules_steps (exec : String → Option Error) (modules : List String) :
    (connect.enableModules exec modules).filter Event.isConnectStep = [] ∧
    (connect.enableModules exec modules).filterMap Event.execSql =
      modules.map (fun module => "SET GLOBAL innodb_monitor_enable = '" ++ module ++ "'") := by
  induction modules with
  | nil => exact ⟨rfl, rfl⟩
  | cons module rest ih =>
    cases h : exec ("SET GLOBAL innodb_monitor_enable = '" ++ module ++ "'") <;>
      simp [connect.enableModules, h, ih, Event.isConnectStep, Event.execSql,
        List.filter_cons, List.filterMap_cons]

theorem setup_steps (exec : String → Option Error) (cfg : Config) :
    (connect.setup exec cfg).filter Event.isConnectStep = [] ∧
    (connect.setup exec cfg).filterMap Event.execSql = setupStatements cfg := by
  unfold connect.setup setupStatements
  have hmod := enableModules_steps exec cfg.InnoDB
  cases hI : cfg.InnoDB with
  | nil =>
    cases hu : cfg.UserStats <;> cases hx : exec "SET GLOBAL userstat=ON" <;>
      simp [hx, Event.isConnectStep, Event.execSql, List.filter_cons,
        List.filterMap_cons]
  | cons module rest =>
    rw [hI] at hmod
    cases hu : cfg.UserStats <;> cases hx : exec "SET GLOBAL userstat=ON" <;>
      simp [hx, hmod, Event.isConnectStep, Event.execSql, List.filter_cons,
        List.filterMap_cons, List.filterMap_append]

theorem connect_loop_succeeds (m : Monitor) (cfg : Config) (errText : Error → String)
    (exec : String → Option Error) (later : List (Option Error)) (hcfg : m.config = some cfg)
    (errs : List Error) (err : Option Error) :
    (Monitor.connect.loop m errText exec err (errs.map some ++ none :: later)).ending =
      ConnectEnd.returned ∧
    (Monitor.connect.loop m errText exec err (errs.map some ++ none :: later)).trace.filter
        Event.isConnectStep =
      (match err with
       | some e => Event.StatusUpdate (m.name ++ "-mysql") ("Connecting (" ++ errText e ++ ")")
       | none => Event.StatusUpdate (m.name ++ "-mysql") "Connecting") ::
      Event.ConnConnect ::
      (errs.flatMap (fun e =>
          [Event.StatusUpdate (m.name ++ "-mysql") ("Connecting (" ++ errText e ++ ")"),
           Event.ConnConnect]) ++
        [Event.StatusUpdate (m.name ++ "-mysql") "Connected", Event.ConnectedSend true]) ∧
    (Monitor.connect.loop m errText exec err (errs.map some ++ none :: later)).trace.filterMap
        Event.execSql = setupStatements cfg := by
  induction errs generalizing err with
  | nil =>
    obtain ⟨hs1, hs2⟩ := setup_steps exec cfg
    cases err <;>
      simp [Monitor.connect.loop, hcfg, hs1, hs2, Event.isConnectStep, Event.execSql,
        List.filter_cons, List.filterMap_cons, List.filterMap_append]
  | cons e rest ih =>
    obtain ⟨h1, h2, h3⟩ := ih (some e)
    cases err <;>
      simp [Monitor.connect.loop, h1, h2, h3, Event.isConnectStep, Event.execSql,
        List.filter_cons, List.filterMap_cons, List.filterMap_append]

theorem connect_loop_ends_with_send (m : Monitor) (cfg : Config) (errText : Error → String)
    (exec : String → Option Error) (later : List (Option Error)) (hcfg : m.config = some cfg)
    (errs : List Error) (err : Option Error) :
    [Event.ConnectedSend true] <:+
      (Monitor.connect.loop m errText exec err (errs.map some ++ none :: later)).trace := by
  induction errs generalizing err with
  | nil =>
    simp only [List.map_nil, List.nil_append, Monitor.connect.loop, hcfg]
    exact (show [Event.ConnectedSend true] <:+
        [Event.Info "Connected", Event.StatusUpdate (m.name ++ "-mysql") "Connected",
         Event.ConnectedSend true] from
      ⟨[Event.Info "Connected", Event.StatusUpdate (m.name ++ "-mysql") "Connected"], rfl⟩).trans
      (List.suffix_append _ _)
  | cons e rest ih =>
    simp only [List.map_cons, List.cons_append, Monitor.connect.loop]
    exact (ih (some e)).trans ((List.suffix_append _ _).trans ((List.suffix_cons _ _).trans
      ((List.suffix_cons _ _).trans (List.suffix_cons _ _))))

/-- C16: let the connection attempts fail with the errors `errs` and then
succeed (the first success is attempt number `errs.length + 1`), on a monitor
with a config and whatever the session-setup statements return. Then
`connect(nil)` returns, and its protocol steps are, in this order: close the
connection; status `"Connecting"` and the first attempt; for each failure,
status `"Connecting (<that error>)"` and the next attempt; status
`"Connected"`; one `true` on the connectivity channel. All statuses go to
`<name>-mysql`, nothing follows the send but the closing debug line, and the
statements executed are one `SET GLOBAL innodb_monitor_enable` per module and
`SET GLOBAL userstat=ON` if `UserStats`. -/
theorem connect_returns_after_first_success (m : Monitor) (cfg : Config)
    (errText : Error → String) (exec : String → Option Error) (errs : List Error)
    (later : List (Option Error)) (hcfg : m.config = some cfg) :
    (m.connect errText exec none (errs.map some ++ none :: later)).ending =
      ConnectEnd.returned ∧
    (m.connect errText exec none (errs.map some ++ none :: later)).trace.filter
        Event.isConnectStep =
      Event.ConnClose :: Event.StatusUpdate (m.name ++ "-mysql") "Connecting" ::
      Event.ConnConnect ::
      (errs.flatMap (fun e =>
          [Event.StatusUpdate (m.name ++ "-mysql") ("Connecting (" ++ errText e ++ ")"),
           Event.ConnConnect]) ++
        [Event.StatusUpdate (m.name ++ "-mysql") "Connected", Event.ConnectedSend true]) ∧
    (m.connect errText exec none (errs.map some ++ none :: later)).trace.filterMap
        Event.execSql = setupStatements cfg ∧
    [Event.ConnectedSend true, Event.Debug "connect:return"] <:+
      (m.connect errText exec none (errs.map some ++ none :: later)).trace := by
  obtain ⟨h1, h2, h3⟩ := connect_loop_succeeds m cfg errText exec later hcfg errs none
  refine ⟨?_, ?_, ?_, ?_⟩
  · simp [Monitor.connect, h1]
  · simp [Monitor.connect, h1, h2, Event.isConnectStep, List.filter_cons]
  · simp [Monitor.connect, h1, h3, Event.execSql, List.filterMap_cons, List.filterMap_append]
  · obtain ⟨front, hfront⟩ :=
      connect_loop_ends_with_send m cfg errText exec later hcfg errs none
    refine ⟨[Event.Debug "connect:call", Event.ConnClose] ++ front, ?_⟩
    simp [Monitor.connect, h1, ← hfront]

theorem connect_returns_after_first_success_witness :
    connectedMonitor.config = some exampleConfig ∧
    (connectedMonitor.connect exampleErrText failingExec none
        [some (Error.other "connection refused"), some (Error.other "timeout"), none]).trace =
      [Event.Debug "connect:call", Event.ConnClose,
       Event.Debug "connect:try", Event.StatusUpdate "mysql-monitor-mysql" "Connecting",
       Event.ConnConnect, Event.Warn (Error.other "connection refused"),
       Event.Debug "connect:try",
       Event.StatusUpdate "mysql-monitor-mysql" "Connecting (connection refused)",
       Event.ConnConnect, Event.Warn (Error.other "timeout"),
       Event.Debug "connect:try",
       Event.StatusUpdate "mysql-monitor-mysql" "Connecting (timeout)",
       Event.ConnConnect,
       Event.Exec "SET GLOBAL innodb_monitor_enable = 'os'",
       Event.LogError "SET GLOBAL innodb_monitor_enable = 'os'" (Error.other "Access denied"),
       Event.Exec "SET GLOBAL userstat=ON",
       Event.LogError "SET GLOBAL userstat=ON" (Error.other "Access denied"),
       Event.Info "Connected", Event.StatusUpdate "mysql-monitor-mysql" "Connected",
       Event.ConnectedSend true, Event.Debug "connect:return"] ∧
    (connectedMonitor.connect exampleErrText failingExec none
        [some (Error.other "connection refused"), some (Error.other "timeout"), none]).ending =
      ConnectEnd.returned :=
  ⟨rfl, by decide,
   (connect_returns_after_first_success connectedMonitor exampleConfig exampleErrText
      failingExec [Error.other "connection refused", Error.other "timeout"] [] rfl).1⟩

/-- C17: a monitor built with a non-nil config and taken through `Start`,
`Stop`, `Start` (each returns nil) is running with a nil config: `Stop` set it
to nil and `Start` does not assign it, and a new run loop is spawned. On that
monitor the connect sub-task panics at its first successful connection
attempt, where it reads `m.config.InnoDB`, and the run loop panics on a tick
received while the connected flag is set, where it reads `m.config.Service`. -/
theorem restart_runs_with_nil_config (name : String) (cfg : Config) (logger conn : Nat)
    (tickChan collectionChan tickChan2 collectionChan2 : Chan) :
    ((NewMonitor name (some cfg) logger conn).Start tickChan collectionChan).ret = none ∧
    ((NewMonitor name (some cfg) logger conn).Start tickChan collectionChan).monitor.Stop.ret
      = none ∧
    (((NewMonitor name (some cfg) logger conn).Start tickChan collectionChan).monitor.Stop.monitor.Start
      tickChan2 collectionChan2).ret = none ∧
    Event.GoRun ∈ (((NewMonitor name (some cfg) logger conn).Start tickChan
      collectionChan).monitor.Stop.monitor.Start tickChan2 collectionChan2).trace ∧
    (((NewMonitor name (some cfg) logger conn).Start tickChan collectionChan).monitor.Stop.monitor.Start
      tickChan2 collectionChan2).monitor.running = true ∧
    (((NewMonitor name (some cfg) logger conn).Start tickChan collectionChan).monitor.Stop.monitor.Start
      tickChan2 collectionChan2).monitor.config = none ∧
    (∀ (errText : Error → String) (exec : String → Option Error) (errs : List Error)
        (later : List (Option Error)),
      ((((NewMonitor name (some cfg) logger conn).Start tickChan
        collectionChan).monitor.Stop.monitor.Start tickChan2 collectionChan2).monitor.connect
          errText exec none (errs.map some ++ none :: later)).ending = ConnectEnd.panicked) ∧
    (∀ (ν : Type) (lib : GoLib ν) (db : DB) (accepted : Bool) (now : Time) (s : RunState),
      Monitor.runTick lib
        { (((NewMonitor name (some cfg) logger conn).Start tickChan
            collectionChan).monitor.Stop.monitor.Start tickChan2 collectionChan2).monitor with
          connected := true } db accepted now s = none) := by
  refine ⟨by simp [NewMonitor, Monitor.Start], by simp [NewMonitor, Monitor.Start, Monitor.Stop],
    by simp [NewMonitor, Monitor.Start, Monitor.Stop],
    by simp [NewMonitor, Monitor.Start, Monitor.Stop],
    by simp [NewMonitor, Monitor.Start, Monitor.Stop],
    by simp [NewMonitor, Monitor.Start, Monitor.Stop], ?_, ?_⟩
  · intro errText exec errs later
    have hnil : (((NewMonitor name (some cfg) logger conn).Start tickChan
        collectionChan).monitor.Stop.monitor.Start tickChan2 collectionChan2).monitor.config
          = none := by
      simp [NewMonitor, Monitor.Start, Monitor.Stop]
    generalize (((NewMonitor name (some cfg) logger conn).Start tickChan
        collectionChan).monitor.Stop.monitor.Start tickChan2 collectionChan2).monitor = m at hnil
    have hloop : ∀ err, (Monitor.connect.loop m errText exec err
        (errs.map some ++ none :: later)).ending = ConnectEnd.panicked := by
      induction errs with
      | nil =>
        intro err
        simp [Monitor.connect.loop, hnil]
      | cons e rest ih =>
        intro err
        simp [Monitor.connect.loop, ih (some e)]
    simp [Monitor.connect, hloop none]
  · intro ν lib db accepted now s
    simp [Monitor.runTick, NewMonitor, Monitor.Start, Monitor.Stop]

/-! ## The system monitor -/

theorem ProcStat_loop_eq (old : List (String × List Nat)) (lines : List system.StatLine)
    (new : List (String × List Nat)) (metrics : List (Metric ℚ)) :
    system.ProcStat.loop old lines new metrics =
      ({ prev := (lines.filter (fun line => system.isCPU line.1)).reverse ++ new },
       metrics ++ lines.flatMap (system.lineMetrics old)) := by
  induction lines generalizing new metrics with
  | nil => simp [system.ProcStat.loop]
  | cons line rest ih =>
    cases h : system.isCPU line.1 <;>
      simp [system.ProcStat.loop, ih, h, List.filter_cons, List.flatMap_cons]

theorem lookup_of_unique (l : List (String × List Nat)) (label : String) (v : List Nat)
    (hmem : (label, v) ∈ l) (huniq : ∀ w, (label, w) ∈ l → w = v) :
    l.lookup label = some v := by
  induction l with
  | nil => simp at hmem
  | cons entry rest ih =>
    obtain ⟨k, w⟩ := entry
    by_cases hk : label = k
    · subst hk
      have hw : w = v := huniq w (by simp)
      simp [List.lookup, hw]
    · have hne : (label == k) = false := by simpa using hk
      have hmem2 : (label, v) ∈ rest := by
        rcases List.mem_cons.1 hmem with h | h
        · exact absurd (congrArg Prod.fst h) hk
        · exact h
      simp only [List.lookup, hne]
      exact ih hmem2 (fun w hw => huniq w (List.mem_cons_of_mem _ hw))

theorem lookup_append_of_some (l1 l2 : List (String × List Nat)) (label : String)
    (v : List Nat) (h : l1.lookup label = some v) : (l1 ++ l2).lookup label = some v := by
  induction l1 with
  | nil => simp [List.lookup] at h
  | cons entry rest ih =>
    obtain ⟨k, w⟩ := entry
    cases hk : (label == k) with
    | true => simpa [List.lookup, hk] using h
    | false =>
      simp only [List.lookup, hk, List.cons_append] at h ⊢
      exact ih h

theorem round6_near (q : ℚ) : |system.round6 q - q| ≤ 1 / 2000000 := by
  unfold system.round6
  have h1 : (⌊q * 1000000 + 1 / 2⌋ : ℚ) ≤ q * 1000000 + 1 / 2 := Int.floor_le _
  have h2 : q * 1000000 + 1 / 2 < (⌊q * 1000000 + 1 / 2⌋ : ℚ) + 1 := Int.lt_floor_add_one _
  rw [abs_le]
  constructor
  · rw [le_sub_iff_add_le, le_div_iff₀ (by norm_num)]
    linarith
  · rw [sub_le_iff_le_add, div_le_iff₀ (by norm_num)]
    linarith

theorem sum_round6_near (l : List ℚ) :
    |(l.map system.round6).sum - l.sum| ≤ (l.length : ℚ) * (1 / 2000000) := by
  induction l with
  | nil => simp
  | cons q rest ih =>
    have hq := round6_near q
    have hsplit : ((q :: rest).map system.round6).sum - (q :: rest).sum =
        (system.round6 q - q) + ((rest.map system.round6).sum - rest.sum) := by
      simp only [List.map_cons, List.sum_cons]
      ring
    rw [hsplit]
    refine (abs_add _ _).trans ?_
    simp only [List.length_cons, Nat.cast_add, Nat.cast_one]
    linarith

theorem sum_shares (ds : List Int) (total : ℚ) :
    (ds.map (fun (d : Int) => 100 * (d : ℚ) / total)).sum =
      100 * ((ds.sum : Int) : ℚ) / total := by
  induction ds with
  | nil => simp
  | cons d rest ih =>
    simp only [List.map_cons, List.sum_cons, ih, Int.cast_add]
    ring

theorem deltas_length (prev cur : List Nat) (hp : 9 ≤ prev.length) (hc : 9 ≤ cur.length) :
    (system.deltas prev cur).length = 9 := by
  simp [system.deltas, List.length_zipWith, List.length_take, hp, hc]

theorem cpuGauges_shape (label : String) (prev cur : List Nat) (hp : 9 ≤ prev.length)
    (hc : 9 ≤ cur.length) (hT : (system.deltas prev cur).sum ≠ 0) :
    (system.cpuGauges label prev cur).map (fun g => g.Name) =
      system.buckets.map (fun name => label ++ "/" ++ name) ∧
    (∀ g ∈ system.cpuGauges label prev cur, g.Type_ = "gauge") ∧
    (system.cpuGauges label prev cur).map (fun g => g.Number) =
      (system.deltas prev cur).map (fun (d : Int) =>
        system.round6 (100 * (d : ℚ) / (((system.deltas prev cur).sum : Int) : ℚ))) := by
  have hlen := deltas_length prev cur hp hc
  unfold system.cpuGauges
  simp only [hT, if_false]
  generalize system.deltas prev cur = ds at hlen hT
  rcases ds with _ | ⟨d1, _ | ⟨d2, _ | ⟨d3, _ | ⟨d4, _ | ⟨d5, _ | ⟨d6, _ | ⟨d7, _ | ⟨d8,
    _ | ⟨d9, _ | ⟨d10, rest⟩⟩⟩⟩⟩⟩⟩⟩⟩⟩ <;> simp at hlen
  simp [system.buckets]

/-- C13: in the model of the delta-based counter collector. (1) The first
`ProcStat` of a fresh monitor returns the extended metrics of the snapshot
only, in file order: every metric it returns is `cpu-ext/intr`, `cpu-ext/ctxt`
or `cpu-ext/processes` as a counter or `cpu-ext/procs_running` or
`cpu-ext/procs_blocked` as a gauge, with the value of its line, and no bucket
gauge. (2) After a call on a snapshot that holds one line for a CPU label,
the counts of that line are the previous sample of the label. (3) A call on a
monitor that has a previous sample for a CPU label, with a snapshot holding a
line of that label whose counters advanced (nine buckets, total delta not
zero), returns in a row the nine gauges `<label>/user`, ..., `<label>/guest`,
each `100 × bucket_delta / total_delta` to 6 decimals, and their sum is within
`9 × 0.0000005` of 100. -/
theorem ProcStat_first_call_then_deltas (m : system.Monitor) (lines : List system.StatLine)
    (label : String) (prev cur : List Nat) (hcpu : system.isCPU label = true)
    (hprev : m.prev.lookup label = some prev) (hline : (label, cur) ∈ lines)
    (hp : 9 ≤ prev.length) (hc : 9 ≤ cur.length) (hT : (system.deltas prev cur).sum ≠ 0) :
    (∀ first : List system.StatLine,
      (system.NewMonitor.ProcStat first).2 =
        first.flatMap (fun line => if system.isCPU line.1 then [] else system.extMetrics line) ∧
      ∀ metric ∈ (system.NewMonitor.ProcStat first).2, ∃ value : Nat,
        metric.Number = (value : ℚ) ∧ metric.String_ = "" ∧
        ((metric.Type_ = "counter" ∧ (metric.Name = "cpu-ext/intr" ∨
            metric.Name = "cpu-ext/ctxt" ∨ metric.Name = "cpu-ext/processes")) ∨
         (metric.Type_ = "gauge" ∧ (metric.Name = "cpu-ext/procs_running" ∨
            metric.Name = "cpu-ext/procs_blocked")))) ∧
    (∀ (m0 : system.Monitor) (snapshot : List system.StatLine) (counts : List Nat),
      (label, counts) ∈ snapshot → (∀ w, (label, w) ∈ snapshot → w = counts) →
      (m0.ProcStat snapshot).1.prev.lookup label = some counts) ∧
    system.cpuGauges label prev cur <:+: (m.ProcStat lines).2 ∧
    (system.cpuGauges label prev cur).map (fun g => g.Name) =
      [label ++ "/" ++ "user", label ++ "/" ++ "nice", label ++ "/" ++ "system",
       label ++ "/" ++ "idle", label ++ "/" ++ "iowait", label ++ "/" ++ "irq",
       label ++ "/" ++ "softirq", label ++ "/" ++ "steal", label ++ "/" ++ "guest"] ∧
    (∀ g ∈ system.cpuGauges label prev cur, g.Type_ = "gauge") ∧
    (system.cpuGauges label prev cur).map (fun g => g.Number) =
      (system.deltas prev cur).map (fun (d : Int) =>
        system.round6 (100 * (d : ℚ) / (((system.deltas prev cur).sum : Int) : ℚ))) ∧
    |((system.cpuGauges label prev cur).map (fun g => g.Number)).sum - 100| ≤ 9 / 2000000 := by
  obtain ⟨hname, htype, hnum⟩ := cpuGauges_shape label prev cur hp hc hT
  refine ⟨?_, ?_, ?_, ?_, htype, hnum, ?_⟩
  · intro first
    have hout : (system.NewMonitor.ProcStat first).2 =
        first.flatMap (fun line =>
          if system.isCPU line.1 then [] else system.extMetrics line) := by
      simp only [system.Monitor.ProcStat, ProcStat_loop_eq, List.nil_append]
      rfl
    refine ⟨hout, ?_⟩
    intro metric hmem
    rw [hout, List.mem_flatMap] at hmem
    obtain ⟨⟨key, values⟩, -, hin⟩ := hmem
    cases hk : system.isCPU key with
    | true => simp [hk] at hin
    | false =>
      simp only [hk, Bool.false_eq_true, if_false] at hin
      unfold system.extMetrics at hin
      cases values with
      | nil => simp at hin
      | cons value rest =>
        simp only at hin
        split at hin
        · rename_i h1
          simp only [List.mem_singleton] at hin
          subst hin
          refine ⟨value, rfl, rfl, Or.inl ⟨rfl, ?_⟩⟩
          rcases h1 with h1 | h1 | h1 <;> simp [h1]
        · split at hin
          · rename_i h2
            simp only [List.mem_singleton] at hin
            subst hin
            refine ⟨value, rfl, rfl, Or.inr ⟨rfl, ?_⟩⟩
            rcases h2 with h2 | h2 <;> simp [h2]
          · simp at hin
  · intro m0 snapshot counts hmem huniq
    simp only [system.Monitor.ProcStat, ProcStat_loop_eq]
    apply lookup_append_of_some
    apply lookup_of_unique
    · rw [List.mem_reverse, List.mem_filter]
      exact ⟨hmem, by simpa using hcpu⟩
    · intro w hw
      rw [List.mem_reverse, List.mem_filter] at hw
      exact huniq w hw.1
  · obtain ⟨before, after, hsplit⟩ := List.append_of_mem hline
    simp only [system.Monitor.ProcStat, ProcStat_loop_eq, List.nil_append, hsplit,
      List.flatMap_append, List.flatMap_cons]
    have hl : system.lineMetrics m.prev (label, cur) = system.cpuGauges label prev cur := by
      simp [system.lineMetrics, hcpu, hprev]
    rw [hl]
    exact ⟨_, _, by rw [List.append_assoc]⟩
  · simpa [system.buckets] using hname
  · have hsum : ((system.deltas prev cur).map (fun (d : Int) =>
        100 * (d : ℚ) / (((system.deltas prev cur).sum : Int) : ℚ))).sum = 100 := by
      rw [sum_shares]
      have hne : (((system.deltas prev cur).sum : Int) : ℚ) ≠ 0 := by exact_mod_cast hT
      rw [mul_div_assoc, div_self hne, mul_one]
    have hnear := sum_round6_near ((system.deltas prev cur).map (fun (d : Int) =>
        100 * (d : ℚ) / (((system.deltas prev cur).sum : Int) : ℚ)))
    rw [hsum, List.map_map, List.length_map, deltas_length prev cur hp hc] at hnear
    rw [hnum]
    have heq : (9 : ℚ) / 2000000 = ((9 : ℕ) : ℚ) * (1 / 2000000) := by norm_num
    rw [heq]
    exact hnear

theorem ProcStat_first_call_then_deltas_witness :
    ({ Name := "cpu/idle", Type_ := "gauge", Number := 99938488 / 1000000, String_ := "" } :
        Metric ℚ) ∈
      ((system.NewMonitor.ProcStat system.stat001_1).1.ProcStat system.stat001_2).2 ∧
    ({ Name := "cpu0/user", Type_ := "gauge", Number := 131529 / 1000000, String_ := "" } :
        Metric ℚ) ∈
      ((system.NewMonitor.ProcStat system.stat001_1).1.ProcStat system.stat001_2).2 ∧
    ({ Name := "cpu/idle", Type_ := "gauge", Number := 99941063 / 1000000, String_ := "" } :
        Metric ℚ) ∈
      (((system.NewMonitor.ProcStat system.stat001_1).1.ProcStat system.stat001_2).1.ProcStat
        system.stat001_3).2 :=
  ⟨(ProcStat_first_call_then_deltas (system.NewMonitor.ProcStat system.stat001_1).1
      system.stat001_2 "cpu" [1000000, 0, 500000, 389217611, 100000, 0, 0, 0, 0, 0]
      [1000236, 0, 500101, 389786253, 100013, 0, 0, 0, 0, 0]
      (by decide) (by decide) (by decide) (by decide) (by decide) (by decide)).2.2.1.subset
      (by simp [system.cpuGauges, system.deltas, system.buckets, system.round6]; norm_num),
   (ProcStat_first_call_then_deltas (system.NewMonitor.ProcStat system.stat001_1).1
      system.stat001_2 "cpu0" [250000, 0, 125000, 97241434, 25000, 0, 0, 0, 0, 0]
      [250187, 0, 125056, 97383352, 25013, 0, 0, 0, 0, 0]
      (by decide) (by decide) (by decide) (by decide) (by decide) (by decide)).2.2.1.subset
      (by simp [system.cpuGauges, system.deltas, system.buckets, system.round6]; norm_num),
   (ProcStat_first_call_then_deltas
      ((system.NewMonitor.ProcStat system.stat001_1).1.ProcStat system.stat001_2).1
      system.stat001_3 "cpu" [1000236, 0, 500101, 389786253, 100013, 0, 0, 0, 0, 0]
      [1000379, 0, 500167, 390159312, 100024, 0, 0, 0, 0, 0]
      (by decide) (by decide) (by decide) (by decide) (by decide) (by decide)).2.2.1.subset
      (by simp [system.cpuGauges, system.deltas, system.buckets, system.round6]; norm_num)⟩

theorem TestProcStat001_passes :
    system.TestProcStat001.metrics system.NewMonitor
      [system.stat001_1, system.stat001_2, system.stat001_3] [] =
      system.TestProcStat001.expect := by
  simp [system.TestProcStat001.metrics, system.Monitor.ProcStat, ProcStat_loop_eq,
    system.stat001_1, system.stat001_2, system.stat001_3, system.lineMetrics, system.isCPU,
    system.extMetrics, system.cpuGauges, system.deltas, system.buckets, system.round6,
    system.NewMonitor, List.lookup, system.TestProcStat001.expect]
  norm_num

theorem snapshot_loop_eq (recognized : String → Bool) (group type : String)
    (lines : List (String × Nat)) (metrics : List (Metric ℚ)) :
    system.snapshot.loop recognized group type lines metrics =
      metrics ++ (lines.filter (fun line => recognized line.1)).map (fun line =>
        { Name := group ++ "/" ++ line.1, Type_ := type, Number := (line.2 : ℚ),
          String_ := "" }) := by
  induction lines generalizing metrics with
  | nil => simp [system.snapshot.loop]
  | cons line rest ih =>
    cases h : recognized line.1 <;> simp [system.snapshot.loop, h, ih, List.filter_cons]

/-- C14: in the model of the memory and virtual-memory snapshots, `ProcMeminfo`
and `ProcVmstat` return one metric per recognized line, in the order of the
lines: `"memory/<key>"` of type `"gauge"`, respectively `"vmstat/<key>"` of
type `"counter"`, with the value of the line as number. They are stateless:
the monitor is returned as it was, the metrics do not depend on the state of
the monitor (whatever `ProcStat` calls came before), and a second call on the
same content returns the same metrics. -/
theorem ProcMeminfo_ProcVmstat_stateless (recognized : String → Bool) (m : system.Monitor)
    (lines : List (String × Nat)) :
    (m.ProcMeminfo recognized lines).2 =
      (lines.filter (fun line => recognized line.1)).map (fun line =>
        { Name := "memory/" ++ line.1, Type_ := "gauge", Number := (line.2 : ℚ),
          String_ := "" }) ∧
    (m.ProcVmstat recognized lines).2 =
      (lines.filter (fun line => recognized line.1)).map (fun line =>
        { Name := "vmstat/" ++ line.1, Type_ := "counter", Number := (line.2 : ℚ),
          String_ := "" }) ∧
    (m.ProcMeminfo recognized lines).1 = m ∧ (m.ProcVmstat recognized lines).1 = m ∧
    (∀ m2 : system.Monitor,
      (m2.ProcMeminfo recognized lines).2 = (m.ProcMeminfo recognized lines).2 ∧
      (m2.ProcVmstat recognized lines).2 = (m.ProcVmstat recognized lines).2) ∧
    (∀ snapshot : List system.StatLine,
      ((m.ProcStat snapshot).1.ProcMeminfo recognized lines).2 =
        (m.ProcMeminfo recognized lines).2 ∧
      ((m.ProcStat snapshot).1.ProcVmstat recognized lines).2 =
        (m.ProcVmstat recognized lines).2) ∧
    ((m.ProcMeminfo recognized lines).1.ProcMeminfo recognized lines).2 =
      (m.ProcMeminfo recognized lines).2 ∧
    ((m.ProcVmstat recognized lines).1.ProcVmstat recognized lines).2 =
      (m.ProcVmstat recognized lines).2 := by
  refine ⟨?_, ?_, rfl, rfl, fun _ => ⟨rfl, rfl⟩, fun _ => ⟨rfl, rfl⟩, rfl, rfl⟩
  · simp [system.Monitor.ProcMeminfo, snapshot_loop_eq, String.append_assoc]
  · simp [system.Monitor.ProcVmstat, snapshot_loop_eq, String.append_assoc]

theorem TestProcMeminfo001_passes :
    (system.NewMonitor.ProcMeminfo (fun key => system.memoryKeys.contains key)
      system.meminfo001).2 = system.TestProcMeminfo001.expect := by
  simp [system.Monitor.ProcMeminfo, snapshot_loop_eq, system.meminfo001, system.memoryKeys,
    system.TestProcMeminfo001.expect, List.filter_cons]

theorem TestProcVmstat001_passes :
    (system.NewMonitor.ProcVmstat (fun key => system.vmstatKeys.contains key)
      system.vmstat001).2 = system.TestProcVmstat001.expect := by
  simp [system.Monitor.ProcVmstat, snapshot_loop_eq, system.vmstat001, system.vmstatKeys,
    system.TestProcVmstat001.expect, List.filter_cons]

end PerconaAgent
